import Mathlib

/-!
Verification of the CIM document-generation pipeline
(`server/services/aiService.js`, `cimService.js`, `pdfService.js`,
`templateService.js`).

Modelling conventions:
* JavaScript numbers are modelled by `JSNum`, real numbers extended with
  `Infinity`, `-Infinity` and `NaN`, with division and exponentiation
  following the ECMAScript `Number` semantics (an idealization of IEEE
  doubles: real arithmetic is exact).  Plain data that never meets a
  division-by-zero or `Math.pow` (template constants, chart inputs) is
  modelled by `ℚ` so it stays computable.
* Out-of-range array reads (`a[i]` = `undefined`) feeding arithmetic are
  modelled as `NaN`, which is what the subsequent arithmetic produces.
* `async` functions whose bodies cannot reject are modelled as pure
  functions; fallible ones return `Except`.  The generative-AI backend
  call is abstracted as an `Except Unit String` parameter (its outcome),
  together with the `isAIEnabled` flag.
* Number-to-string conversions (`toFixed(1)`, template interpolation)
  are implemented exactly on `ℚ`; on `ℝ` they use the floor function.
-/

namespace CIMPlatform

set_option maxRecDepth 10000

/-! ## Rational number formatting (JS `toFixed` / template interpolation) -/

/-- Strip trailing `'0'` characters (used when printing fractional digits,
mirroring how JS prints the shortest decimal form). -/
def stripTrailingZeros (s : List Char) : List Char :=
  (s.reverse.dropWhile (· == '0')).reverse

/-- Zero-pad a digit string on the left to length `k`. -/
def padLeftZeros (k : Nat) (s : List Char) : List Char :=
  List.replicate (k - s.length) '0' ++ s

/-- Decimal rendering of a rational whose denominator divides a power of
ten, mirroring JS default number printing (`` `${x}` `` interpolation) for
the finite decimals that occur in the sources.  Other rationals (which do
not occur) are rendered as `num/den`. -/
def qToString (q : ℚ) : String :=
  if q.den = 1 then toString q.num
  else
    match (List.range 31).find? (fun k => 10 ^ k % q.den == 0) with
    | some k =>
      let sign := if q.num < 0 then "-" else ""
      let scaled : ℕ := q.num.natAbs * (10 ^ k / q.den)
      let ip : ℕ := scaled / 10 ^ k
      let fp : ℕ := scaled % 10 ^ k
      let frac := stripTrailingZeros (padLeftZeros k (toString fp).data)
      if frac = [] then sign ++ toString ip
      else sign ++ toString ip ++ "." ++ String.mk frac
    | none => toString q.num ++ "/" ++ toString q.den

/-- JS `Number.prototype.toFixed(1)` on an exact rational: round to one
decimal place, ties toward `+∞` (the rounded value `⌊q·10 + 1/2⌋` is
computed on the reduced fraction so that it evaluates by reduction). -/
def qToFixed1 (q : ℚ) : String :=
  let n : ℤ := Int.fdiv (20 * q.num + (q.den : ℤ)) (2 * (q.den : ℤ))
  let sign := if n < 0 then "-" else ""
  let m : ℕ := n.natAbs
  sign ++ toString (m / 10) ++ "." ++ toString (m % 10)

/-! ## ECMAScript numbers -/

/-- A JavaScript number: a real value, an infinity, or `NaN`. -/
inductive JSNum where
  | num (x : ℝ)
  | inf
  | negInf
  | nan
deriving Inhabited

namespace JSNum

/-- ECMAScript subtraction. -/
noncomputable def sub : JSNum → JSNum → JSNum
  | num x, num y => num (x - y)
  | nan, _ => nan
  | _, nan => nan
  | inf, num _ => inf
  | negInf, num _ => negInf
  | num _, inf => negInf
  | num _, negInf => inf
  | inf, negInf => inf
  | negInf, inf => negInf
  | inf, inf => nan
  | negInf, negInf => nan

/-- ECMAScript multiplication (zero signs collapsed). -/
noncomputable def mul : JSNum → JSNum → JSNum
  | num x, num y => num (x * y)
  | nan, _ => nan
  | _, nan => nan
  | inf, num y => if y = 0 then nan else if 0 < y then inf else negInf
  | num x, inf => if x = 0 then nan else if 0 < x then inf else negInf
  | negInf, num y => if y = 0 then nan else if 0 < y then negInf else inf
  | num x, negInf => if x = 0 then nan else if 0 < x then negInf else inf
  | inf, inf => inf
  | negInf, negInf => inf
  | inf, negInf => negInf
  | negInf, inf => negInf

/-- ECMAScript division (zero signs collapsed: finite `x / 0` is `NaN`
for `x = 0`, `+∞` for `x > 0`, `-∞` for `x < 0`). -/
noncomputable def div : JSNum → JSNum → JSNum
  | num x, num y =>
    if y = 0 then (if x = 0 then nan else if 0 < x then inf else negInf)
    else num (x / y)
  | nan, _ => nan
  | _, nan => nan
  | inf, num y => if 0 ≤ y then inf else negInf
  | negInf, num y => if 0 ≤ y then negInf else inf
  | num _, inf => num 0
  | num _, negInf => num 0
  | inf, inf => nan
  | negInf, negInf => nan
  | inf, negInf => nan
  | negInf, inf => nan

/-- ECMAScript `Math.pow` / `**` (`Number::exponentiate`).  On a positive
finite base and finite exponent this is real exponentiation `Real.rpow`;
the special cases follow the ECMAScript specification, in particular
`Math.pow(±1, ±Infinity) = NaN` and a negative base with a non-integer
exponent gives `NaN`. -/
noncomputable def pow (b e : JSNum) : JSNum :=
  open Classical in
  match e with
  | nan => nan
  | num y =>
    if y = 0 then num 1
    else
      match b with
      | nan => nan
      | inf => if 0 < y then inf else num 0
      | negInf =>
        if 0 < y then (if (⌊y⌋ : ℝ) = y ∧ Odd ⌊y⌋ then negInf else inf)
        else num 0
      | num x =>
        if 0 < x then num (x ^ y)
        else if x = 0 then (if 0 < y then num 0 else inf)
        else if (⌊y⌋ : ℝ) = y then num (x ^ y) else nan
  | inf =>
    match b with
    | nan => nan
    | inf => JSNum.inf
    | negInf => JSNum.inf
    | num x => if |x| = 1 then nan else if |x| < 1 then num 0 else JSNum.inf
  | negInf =>
    match b with
    | nan => nan
    | inf => num 0
    | negInf => num 0
    | num x => if |x| = 1 then nan else if |x| < 1 then JSNum.inf else num 0

/-- JS `>` comparison against a real constant (`NaN > c` is false). -/
noncomputable def gtR (a : JSNum) (c : ℝ) : Bool :=
  open Classical in
  match a with
  | num x => if c < x then true else false
  | inf => true
  | negInf => false
  | nan => false

end JSNum

/-- `Number.prototype.toFixed(1)` on a real value (ties toward `+∞`). -/
noncomputable def rToFixed1 (x : ℝ) : String :=
  let n : ℤ := ⌊x * 10 + 1 / 2⌋
  let sign := if n < 0 then "-" else ""
  let m : ℕ := n.natAbs
  sign ++ toString (m / 10) ++ "." ++ toString (m % 10)

/-- `toFixed(1)` on a `JSNum` (`NaN.toFixed(1) = "NaN"` etc.). -/
noncomputable def jsToFixed1 : JSNum → String
  | .num x => rToFixed1 x
  | .inf => "Infinity"
  | .negInf => "-Infinity"
  | .nan => "NaN"

/-- Default JS string rendering of a real value: exact decimals are
printed as decimals, other reals through a choice function (the sources
only ever print decimal values). -/
noncomputable def rToString (x : ℝ) : String :=
  open Classical in
  if h : ∃ q : ℚ, (q : ℝ) = x then qToString h.choose else "<real>"

/-- `JSON.stringify` of a numeric array. -/
noncomputable def jsonNumList (l : List ℝ) : String :=
  "[" ++ String.intercalate "," (l.map rToString) ++ "]"

/-- First element of a JS numeric array, `undefined` (→ `NaN` in
arithmetic) when empty. -/
def jsHead : List ℝ → JSNum
  | [] => .nan
  | x :: _ => .num x

/-- `a[a.length - 1]`, `undefined` (→ `NaN` in arithmetic) when empty. -/
def jsLast (l : List ℝ) : JSNum :=
  match l.getLast? with
  | none => .nan
  | some x => .num x

/-- JS `Math.round`: round half toward `+∞`. -/
noncomputable def jsRound (x : ℝ) : ℝ := (⌊x + 1 / 2⌋ : ℤ)

/-! ## JS `String.prototype.includes` -/

/-- Does `l` start with `pat`? (char-list level). -/
def listLeadsWith : List Char → List Char → Bool
  | _, [] => true
  | [], _ :: _ => false
  | a :: as, b :: bs => a == b && listLeadsWith as bs

/-- Does `l` contain `pat` as a contiguous run? (char-list level). -/
def listHasRun (pat : List Char) : List Char → Bool
  | [] => pat.isEmpty
  | c :: rest => listLeadsWith (c :: rest) pat || listHasRun pat rest

/-- JS `s.includes(pat)`. -/
def strIncludes (s pat : String) : Bool := listHasRun pat.data s.data

/-! ## Section content values and the renderer's `formatContent`

`PDFService.formatContent` receives dynamically-shaped section content:
`null`/`undefined`, strings, arrays, nested objects, or other
primitives.  `JSContent` is the corresponding (finite, acyclic) value
tree; primitive numbers are plain data (`ℚ`). -/

inductive JSContent where
  | null
  | undef
  | str (s : String)
  | num (q : ℚ)
  | bool (b : Bool)
  | arr (l : List JSContent)
  | obj (entries : List (String × JSContent))
deriving Inhabited

/-- JS truthiness of a content value (`''`, `0`, `false`, `null`,
`undefined` are falsy; arrays and objects are always truthy). -/
def jsTruthy : JSContent → Bool
  | .null => false
  | .undef => false
  | .str s => !(s == "")
  | .num q => !(q == 0)
  | .bool b => b
  | .arr _ => true
  | .obj _ => true

/-- `formatContent`'s bold pass helper: scan for a closing `**` on the
same line (the JS regex `/\*\*(.*?)\*\*/g`, where `.` does not match a
newline); returns the enclosed run and the remainder after the closing
`**`. -/
def scanToDoubleStar : List Char → Option (List Char × List Char)
  | [] => none
  | c :: rest =>
    if c == '\n' then none
    else if c == '*' && rest.head? == some '*' then some ([], rest.tail)
    else (scanToDoubleStar rest).map (fun p => (c :: p.1, p.2))

theorem scanToDoubleStar_length {l mid r : List Char}
    (h : scanToDoubleStar l = some (mid, r)) : r.length + 2 ≤ l.length := by
  induction l generalizing mid r with
  | nil => simp [scanToDoubleStar] at h
  | cons c rest ih =>
    rw [scanToDoubleStar] at h
    by_cases h1 : c == '\n'
    · simp [h1] at h
    · by_cases h2 : c == '*' && rest.head? == some '*'
      · simp only [h1, h2, if_false, if_true, Bool.false_eq_true] at h
        obtain ⟨hm, hr⟩ := Prod.mk.injEq _ _ _ _ ▸ Option.some.injEq _ _ ▸ h
        subst hr
        have hne : rest ≠ [] := by
          intro hx
          subst hx
          simp at h2
        have : rest.tail.length = rest.length - 1 := by simp
        have hlen : 1 ≤ rest.length := by
          cases rest with
          | nil => exact absurd rfl hne
          | cons a t => simp
        simp only [List.length_cons, this]
        omega
      · simp only [h1, h2, if_false, Bool.false_eq_true] at h
        obtain ⟨p, hp, hpe⟩ := Option.map_eq_some'.mp h
        obtain ⟨hm, hr⟩ := Prod.mk.injEq _ _ _ _ ▸ hpe
        subst hr
        have := @ih p.1 p.2 (by rw [hp])
        simp only [List.length_cons]
        omega

/-- The bold pass of `formatContent`
(`formatted.replace(/\*\*(.*?)\*\*/g, '<strong>$1</strong>')`). -/
def replaceBold (l : List Char) : List Char :=
  match l with
  | [] => []
  | c :: rest =>
    if c == '*' && rest.head? == some '*' then
      match h : scanToDoubleStar rest.tail with
      | some (mid, r) =>
        "<strong>".data ++ mid ++ "</strong>".data ++ replaceBold r
      | none => c :: replaceBold rest
    else c :: replaceBold rest
termination_by l.length
decreasing_by
  · have h1 := scanToDoubleStar_length h
    have h2 : rest.tail.length ≤ rest.length := by
      cases rest <;> simp
    simp only [List.length_cons]
    omega
  · simp
  · simp

/-- Scan for a closing single `*` on the same line (the italic regex
`/\*(.*?)\*/g`). -/
def scanToStar : List Char → Option (List Char × List Char)
  | [] => none
  | c :: rest =>
    if c == '\n' then none
    else if c == '*' then some ([], rest)
    else (scanToStar rest).map (fun p => (c :: p.1, p.2))

theorem scanToStar_length {l mid r : List Char}
    (h : scanToStar l = some (mid, r)) : r.length + 1 ≤ l.length := by
  induction l generalizing mid r with
  | nil => simp [scanToStar] at h
  | cons c rest ih =>
    rw [scanToStar] at h
    by_cases h1 : c == '\n'
    · simp [h1] at h
    · by_cases h2 : c == '*'
      · simp only [h1, h2, if_false, if_true, Bool.false_eq_true] at h
        obtain ⟨hm, hr⟩ := Prod.mk.injEq _ _ _ _ ▸ Option.some.injEq _ _ ▸ h
        subst hr
        simp
      · simp only [h1, h2, if_false, Bool.false_eq_true] at h
        obtain ⟨p, hp, hpe⟩ := Option.map_eq_some'.mp h
        obtain ⟨hm, hr⟩ := Prod.mk.injEq _ _ _ _ ▸ hpe
        subst hr
        have := @ih p.1 p.2 (by rw [hp])
        simp only [List.length_cons]
        omega

/-- The italic pass of `formatContent`
(`formatted.replace(/\*(.*?)\*/g, '<em>$1</em>')`). -/
def replaceItalic (l : List Char) : List Char :=
  match l with
  | [] => []
  | c :: rest =>
    if c == '*' then
      match h : scanToStar rest with
      | some (mid, r) => "<em>".data ++ mid ++ "</em>".data ++ replaceItalic r
      | none => c :: replaceItalic rest
    else c :: replaceItalic rest
termination_by l.length
decreasing_by
  · have h1 := scanToStar_length h
    simp only [List.length_cons]
    omega
  · simp
  · simp

/-- JS whitespace class `\s` (the characters that occur in the
sources). -/
def isJSWhitespace (c : Char) : Bool :=
  c == ' ' || c == '\n' || c == '\t' || c == '\r'

/-- JS `String.prototype.trim` at the character-list level. -/
def charTrim (l : List Char) : List Char :=
  ((l.dropWhile isJSWhitespace).reverse.dropWhile isJSWhitespace).reverse

/-- `formatted.split('\n')` at the character-list level
(`''.split('\n')` is `['']`). -/
def splitOnNewline : List Char → List (List Char)
  | [] => [[]]
  | c :: rest =>
    if c == '\n' then [] :: splitOnNewline rest
    else
      match splitOnNewline rest with
      | [] => [[c]]
      | h :: t => (c :: h) :: t

/-- Line-by-line pass of `formatContent` on a string: bullet lines
(`- ` or `• ` after trimming) are collected into `<ol>` lists, other
non-blank lines become `<p>` paragraphs. -/
def buildLines : List (List Char) → Bool → List String
  | [], inList => if inList then ["</ol>"] else []
  | line :: rest, inList =>
    let t := charTrim line
    if listLeadsWith t "- ".data || listLeadsWith t "• ".data then
      let item := String.mk (t.drop 2)
      (if inList then [] else ["<ol style=\"margin-top: 5px; margin-bottom: 5px;\">"])
        ++ ["<li>" ++ item ++ "</li>"] ++ buildLines rest true
    else
      (if inList then ["</ol>"] else [])
        ++ (if t.length > 0 then ["<p style=\"margin: 5px 0;\">" ++ String.mk t ++ "</p>"]
            else [])
        ++ buildLines rest false

/-- `PDFService.formatContent` on a string: bold pass, italic pass, then
the line-by-line conversion, joined with `''`. -/
def formatString (s : String) : String :=
  let formatted := replaceItalic (replaceBold s.data)
  String.join (buildLines (splitOnNewline formatted) false)

/-- `key.replace(/([A-Z])/g, ' $1').replace(/^./, c => c.toUpperCase())`:
the label shown for a nested-object entry. -/
def objLabel (key : String) : String :=
  let spaced := key.data.flatMap (fun ch => if ch.isUpper then [' ', ch] else [ch])
  match spaced with
  | [] => ""
  | c :: rest => String.mk (c.toUpper :: rest)

mutual

/-- Computable structural size of a content value (used as recursion
fuel). -/
def contentSize : JSContent → Nat
  | .arr l => 1 + contentSizeList l
  | .obj es => 1 + contentSizeEntries es
  | _ => 1

def contentSizeList : List JSContent → Nat
  | [] => 0
  | c :: cs => contentSize c + contentSizeList cs + 1

def contentSizeEntries : List (String × JSContent) → Nat
  | [] => 0
  | e :: es => contentSize e.2 + contentSizeEntries es + 1

end

/-- `Array.prototype.map` under a fallible element formatter: `none` as
soon as one element fails (only the fuel cutoff can fail). -/
def optMapM (f : α → Option β) : List α → Option (List β)
  | [] => some []
  | a :: as =>
    match f a with
    | none => none
    | some b => (optMapM f as).map (fun bs => b :: bs)

/-- `PDFService.formatContent`, fuel-indexed: `none` models a recursion
that would not terminate within `fuel` nested levels (the JS function
recurses on nested arrays/objects without any bound; on every finite
acyclic value a fuel of `contentSize` suffices, see `formatContent_total`).
Falsy content (`null`, `undefined`, `''`, `0`, `false`) yields `''`;
strings get the markup conversion; arrays become `<ul>` lists (empty
arrays yield `''`); objects either delegate to their `content` property
(when truthy) or expand to labelled `<div>` blocks (the
`Object.entries(content).map(...)` branch, `formatObjEntries` below);
other primitives are `String(content)`. -/
def formatContent : Nat → JSContent → Option String
  | 0, _ => none
  | fuel + 1, c =>
    if !jsTruthy c then some ""
    else
      match c with
      | .null => some ""
      | .undef => some ""
      | .str s => some (formatString s)
      | .num q => some (qToString q)
      | .bool _ => some "true"
      | .arr l =>
        if l.isEmpty then some ""
        else
          (optMapM (formatContent fuel) l).map (fun parts =>
            "<ul style=\"margin: 5px 0;\">"
              ++ String.join (parts.map (fun p => "<li>" ++ p ++ "</li>"))
              ++ "</ul>")
      | .obj entries =>
        match entries.lookup "content" with
        | some v =>
          if jsTruthy v then formatContent fuel v
          else
            (optMapM (fun e =>
              (formatContent fuel e.2).map (fun h =>
                "<div style=\"margin-bottom: 5px;\"><strong>" ++ objLabel e.1
                  ++ ":</strong> " ++ h ++ "</div>")) entries).map String.join
        | none =>
          (optMapM (fun e =>
            (formatContent fuel e.2).map (fun h =>
              "<div style=\"margin-bottom: 5px;\"><strong>" ++ objLabel e.1
                ++ ":</strong> " ++ h ++ "</div>")) entries).map String.join
termination_by structural fuel => fuel

/-- The `Object.entries(content).map(...)` branch of `formatContent`,
as a named function (both `obj` fallthroughs above are this). -/
def formatObjEntries (fuel : Nat) (entries : List (String × JSContent)) :
    Option String :=
  (optMapM (fun e =>
    (formatContent fuel e.2).map (fun h =>
      "<div style=\"margin-bottom: 5px;\"><strong>" ++ objLabel e.1
        ++ ":</strong> " ++ h ++ "</div>")) entries).map String.join

/-- `formatContent` with enough fuel for the value at hand
(`formatContent_total` below shows this fuel always suffices). -/
def formatContentT (c : JSContent) : String :=
  (formatContent (contentSize c) c).getD ""

/-- One section of a CIM document: `{title, content, order}`. -/
structure Section where
  title : String
  content : JSContent
  order : Nat
deriving Inhabited

/-- A section after `formatSectionsForTemplate`. -/
structure FormattedSection where
  title : String
  content : String
  order : Nat
deriving Inhabited

/-- `PDFService.formatSectionsForTemplate`: format every section's
content for the page template. -/
def formatSectionsForTemplate (sections : List (String × Section)) :
    List (String × FormattedSection) :=
  sections.map (fun kv => (kv.1, ⟨kv.2.title, formatContentT kv.2.content, kv.2.order⟩))

/-! ## AIService input shapes

Absent (`undefined`) fields are `none`.  JS `x || default` substitutes
the default for any falsy value, so `orStr`/`orQ` also treat `''` and
`0` as absent; arrays are always truthy in JS, so list fields use
`Option.getD`. -/

/-- `value || default` for strings. -/
def orStr (v : Option String) (d : String) : String :=
  match v with
  | some s => if s = "" then d else s
  | none => d

/-- `value || default` for plain numbers. -/
def orQ (v : Option ℚ) (d : ℚ) : ℚ :=
  match v with
  | some q => if q = 0 then d else q
  | none => d

/-- The caller-supplied financial series (`financialData`). -/
structure FinancialData where
  revenue : Option (List ℝ) := none
  netIncome : Option (List ℝ) := none
  ebitda : Option (List ℝ) := none
  cashFlow : Option (List ℝ) := none

/-- Company descriptor (`companyData`). -/
structure Company where
  name : Option String := none
  industry : Option String := none
  description : Option String := none

/-- Industry descriptor (`industryData`). -/
structure IndustryData where
  marketSize : Option ℚ := none
  growthRate : Option ℚ := none

/-- Investor assumptions. -/
structure Assumptions where
  investmentAmount : Option ℚ := none

/-! ## `AIService.generateFinancialAnalysis` -/

/-- The `growthAnalysis` sub-object of the financial analysis. -/
structure GrowthAnalysis where
  growthRate : String
  trend : String
deriving Inhabited

/-- The financial analysis result object.  `revenueGrowth`,
`profitMargin` and `cagr` are the function's local metric values
(interpolated into `content` and `financialHighlights` in the source),
surfaced as fields so that properties can be stated about them. -/
structure FinAnalysis where
  content : String
  financialHighlights : List String
  growthAnalysis : GrowthAnalysis
  revenue : List ℝ
  netIncome : List ℝ
  ebitda : List ℝ
  cashFlow : List ℝ
  revenueGrowth : JSNum
  profitMargin : JSNum
  cagr : JSNum

/-- `AIService.generateFinancialAnalysis`, the deterministic Financial
Analyzer: defaults for missing series, growth/margin/CAGR metrics,
narrative content, highlight list and trend classification. -/
noncomputable def generateFinancialAnalysis (financialData : FinancialData) :
    FinAnalysis :=
  let revenue := financialData.revenue.getD [1200000, 1500000, 1800000, 2500000, 3200000]
  let netIncome := financialData.netIncome.getD [180000, 225000, 270000, 375000, 480000]
  let ebitda := financialData.ebitda.getD (netIncome.map (fun n => jsRound (n * 1.5)))
  let cashFlow := financialData.cashFlow.getD [240000, 300000, 360000, 500000, 640000]
  let revenueGrowth :=
    JSNum.mul (JSNum.sub (JSNum.div (jsLast revenue) (jsHead revenue)) (.num 1)) (.num 100)
  let profitMargin :=
    JSNum.mul (JSNum.div (jsLast netIncome) (jsLast revenue)) (.num 100)
  let cagr :=
    JSNum.sub
      (JSNum.pow (JSNum.div (jsLast revenue) (jsHead revenue))
        (JSNum.div (.num 1) (.num ((revenue.length : ℝ) - 1))))
      (.num 1)
  { content :=
      "\n**Financial Performance Analysis**\n\n**Revenue Growth:**\n- 3-Year Revenue CAGR: "
        ++ jsToFixed1 (JSNum.mul cagr (.num 100))
        ++ "%\n- Total Growth: " ++ jsToFixed1 revenueGrowth
        ++ "% over the period\n- Consistent upward trajectory demonstrating strong market demand\n\n**Profitability Metrics:**\n- Current Net Profit Margin: "
        ++ jsToFixed1 profitMargin
        ++ "%\n- Improving operational efficiency\n- Strong cash generation capabilities\n\n**Key Financial Highlights:**\n- Revenue: $"
        ++ jsToFixed1 (JSNum.div (jsLast revenue) (.num 1000000))
        ++ "M (latest year)\n- Net Income: $"
        ++ jsToFixed1 (JSNum.div (jsLast netIncome) (.num 1000000))
        ++ "M\n- Cash Flow: $"
        ++ jsToFixed1 (JSNum.div (jsLast cashFlow) (.num 1000000))
        ++ "M\n- Healthy financial fundamentals with growth trajectory\n\n**Investment Strengths:**\n- Consistent revenue growth across all periods\n- Improving profitability margins\n- Strong cash flow generation\n- Scalable business model with operational leverage\n      ",
    financialHighlights :=
      [jsToFixed1 (JSNum.mul cagr (.num 100)) ++ "% revenue CAGR",
       jsToFixed1 profitMargin ++ "% profit margin",
       "Strong cash flow generation",
       "Improving operational efficiency"],
    growthAnalysis :=
      { growthRate := jsToFixed1 (JSNum.mul cagr (.num 100)) ++ "%",
        trend :=
          if JSNum.gtR cagr 0.15 then "Strong growth"
          else if JSNum.gtR cagr 0.05 then "Moderate growth"
          else "Steady growth" },
    revenue := revenue, netIncome := netIncome, ebitda := ebitda, cashFlow := cashFlow,
    revenueGrowth := revenueGrowth, profitMargin := profitMargin, cagr := cagr }

/-! ## `AIService.generateMarketAnalysisContent` -/

/-- The market analysis result object. -/
structure MktAnalysis where
  content : String
  marketSize : ℚ
  growthRate : ℚ
  opportunity : String
  advantages : List String
  risks : List String
deriving Inhabited

/-- `AIService.generateMarketAnalysisContent`, the Market Analyzer:
defaults for missing market size / growth rate, a structured narrative,
a fixed advantages list and a fixed risks list. -/
def generateMarketAnalysisContent (companyData : Option Company)
    (industryData : Option IndustryData) : MktAnalysis :=
  let marketSize := orQ (industryData.bind (·.marketSize)) 50000000000
  let growthRate := orQ (industryData.bind (·.growthRate)) 15
  let companyName := orStr (companyData.bind (·.name)) "The Company"
  let industry := orStr (companyData.bind (·.industry)) "Technology"
  { content :=
      "\n**Market Analysis & Opportunity**\n\n**Market Size & Growth:**\n- Total Addressable Market: $"
        ++ qToFixed1 (marketSize / 1000000000)
        ++ "B\n- Annual Market Growth Rate: " ++ qToString growthRate
        ++ "%\n- Market Stage: Expanding with strong fundamentals\n- Geographic Reach: Multiple markets with expansion potential\n\n**Industry Dynamics:**\n- "
        ++ industry
        ++ " sector showing robust growth\n- Increasing demand for innovative solutions\n- Digital transformation driving market expansion\n- Favorable regulatory and economic environment\n\n**Competitive Landscape:**\n- "
        ++ companyName
        ++ " well-positioned in attractive market segment\n- Differentiated value proposition and competitive advantages\n- Strong brand recognition and customer loyalty\n- Scalable business model with network effects\n\n**Growth Opportunities:**\n- Market expansion into new geographic regions\n- Product innovation and development pipeline\n- Strategic partnerships and channel expansion\n- Customer base growth and market share capture\n\n**Market Positioning:**\n- Strong competitive moat and defensible position\n- First-mover advantages in key market segments\n- Technology leadership and innovation capabilities\n- Established customer relationships and partnerships\n      ",
    marketSize := marketSize,
    growthRate := growthRate,
    opportunity := "Significant market opportunity with favorable dynamics and strong growth potential",
    advantages :=
      ["Strong competitive positioning",
       "Differentiated value proposition",
       "Scalable business model",
       "Market leadership position"],
    risks :=
      ["Competitive pressure from established players",
       "Market saturation and maturity",
       "Economic and regulatory changes",
       "Technology disruption and innovation cycles"] }

/-! ## `AIService.generateROIAnalysis` -/

/-- One ROI scenario (`{irr, multiple, payback}`). -/
structure Scenario where
  irr : ℚ
  multiple : ℚ
  payback : ℚ
deriving Inhabited, DecidableEq

/-- The three named scenarios. -/
structure Scenarios where
  baseCase : Scenario
  optimistic : Scenario
  conservative : Scenario
deriving Inhabited, DecidableEq

/-- The assumptions echoed by the ROI analysis. -/
structure ROIAssumptions where
  investmentAmount : ℚ
  timeHorizon : ℚ
  exitStrategy : String
deriving Inhabited

/-- The ROI analysis result object. -/
structure ROIAnalysis where
  content : String
  scenarios : Scenarios
  assumptions : ROIAssumptions
deriving Inhabited

/-- `AIService.generateROIAnalysis`, the ROI Projector: fixed IRR and
multiple constants per scenario tier; exit valuations are
`investmentAmount * multiple`.  (`marketData` is accepted and ignored,
and the local `currentRevenue` is computed but unused, as in the
source.) -/
def generateROIAnalysis (financialData : FinancialData)
    (assumptions : Option Assumptions) : ROIAnalysis :=
  let revenue := financialData.revenue.getD [2500000, 3200000, 4100000]
  let _currentRevenue := jsLast revenue
  let investmentAmount := orQ (assumptions.bind (·.investmentAmount)) 5000000
  let baseIRR : ℚ := 22
  let optimisticIRR : ℚ := 28
  let conservativeIRR : ℚ := 18
  let baseMultiple : ℚ := 4.2
  let optimisticMultiple : ℚ := 5.8
  let conservativeMultiple : ℚ := 3.1
  { content :=
      "\n**Investment Projections & Returns Analysis**\n\n**Base Case Scenario:**\n- Projected IRR: "
        ++ qToString baseIRR ++ "%\n- Investment Multiple: " ++ qToString baseMultiple
        ++ "x\n- Payback Period: 3.8 years\n- Exit Valuation: $"
        ++ qToFixed1 (investmentAmount * baseMultiple / 1000000)
        ++ "M\n\n**Optimistic Scenario:**\n- Projected IRR: "
        ++ qToString optimisticIRR ++ "%\n- Investment Multiple: " ++ qToString optimisticMultiple
        ++ "x\n- Payback Period: 3.2 years\n- Exit Valuation: $"
        ++ qToFixed1 (investmentAmount * optimisticMultiple / 1000000)
        ++ "M\n\n**Conservative Scenario:**\n- Projected IRR: "
        ++ qToString conservativeIRR ++ "%\n- Investment Multiple: " ++ qToString conservativeMultiple
        ++ "x\n- Payback Period: 4.5 years\n- Exit Valuation: $"
        ++ qToFixed1 (investmentAmount * conservativeMultiple / 1000000)
        ++ "M\n\n**Key Assumptions:**\n- Investment Amount: $"
        ++ qToFixed1 (investmentAmount / 1000000)
        ++ "M\n- Time Horizon: 5 years\n- Exit Strategy: Strategic acquisition or IPO\n- Market growth continues at current trajectory\n\n**Value Creation Drivers:**\n- Revenue growth and market expansion\n- Operational efficiency improvements\n- Strategic partnerships and acquisitions\n- Technology innovation and competitive advantages\n      ",
    scenarios :=
      { baseCase := ⟨baseIRR, baseMultiple, 3.8⟩,
        optimistic := ⟨optimisticIRR, optimisticMultiple, 3.2⟩,
        conservative := ⟨conservativeIRR, conservativeMultiple, 4.5⟩ },
    assumptions :=
      { investmentAmount := investmentAmount,
        timeHorizon := 5,
        exitStrategy := "Strategic acquisition or IPO" } }

/-! ## `AIService` executive summary -/

/-- `AIService.generateExecutiveSummaryContent`: the deterministic
fallback template for the executive summary. -/
noncomputable def generateExecutiveSummaryContent (companyData : Option Company)
    (financialAnalysis : Option FinAnalysis) (marketAnalysis : Option MktAnalysis) :
    String :=
  let companyName := orStr (companyData.bind (·.name)) "The Company"
  let industry := orStr (companyData.bind (·.industry)) "Technology"
  "\n**Executive Summary**\n\n**Investment Opportunity:**\n"
    ++ companyName
    ++ " represents a compelling investment opportunity in the rapidly growing "
    ++ industry.toLower
    ++ " sector. The company has demonstrated strong financial performance with consistent revenue growth and improving profitability metrics.\n\n**Key Investment Highlights:**\n• Strong financial fundamentals with "
    ++ orStr (financialAnalysis.map (·.growthAnalysis.growthRate)) "25%"
    ++ " revenue CAGR\n• Large and expanding market opportunity worth $"
    ++ (match marketAnalysis with
        | none => qToFixed1 50
        | some m =>
          if m.marketSize / 1000000000 = 0 then qToFixed1 50
          else qToFixed1 (m.marketSize / 1000000000))
    ++ "B\n• Differentiated competitive position with sustainable advantages\n• Experienced management team with proven track record\n• Clear path to profitability and strong cash generation\n\n**Financial Performance:**\nThe company has shown impressive growth trajectory with revenue increasing consistently over the past three years. Profitability margins are improving, demonstrating operational efficiency and scalability of the business model.\n\n**Market Opportunity:**\nOperating in a "
    ++ qToString (orQ (marketAnalysis.map (·.growthRate)) 15)
    ++ "% annually growing market, the company is well-positioned to capture significant market share through its innovative solutions and strong competitive positioning.\n\n**Investment Thesis:**\nThis investment offers attractive risk-adjusted returns with projected IRR of 22% and investment multiple of 4.2x in the base case scenario. The combination of strong fundamentals, market opportunity, and experienced team makes this a compelling investment opportunity.\n\n**Use of Funds:**\nInvestment proceeds will be used to accelerate growth through market expansion, product development, strategic partnerships, and operational scaling to capture the significant market opportunity ahead.\n    "

/-- The `{success, executiveSummary, timestamp}` envelope returned by
`generateExecutiveSummary` (the timestamp is not modelled). -/
structure ExecResult where
  success : Bool
  executiveSummary : String

/-- `AIService.generateExecutiveSummary`.  The generative backend call
is abstracted by `isAIEnabled` (presence of a credential) and
`aiResult` (the outcome of `generateAIExecutiveSummary`: the returned
text, or an error for any rejection — network, auth, malformed
response, timeout).  On the AI path an error is caught and the
deterministic template is substituted; the outer `catch` (a rejection
of the whole body) cannot fire in this model because the template
interpolation is total. -/
noncomputable def generateExecutiveSummary (isAIEnabled : Bool)
    (aiResult : Except Unit String) (companyData : Option Company)
    (financialAnalysis : Option FinAnalysis) (marketAnalysis : Option MktAnalysis) :
    Except String ExecResult :=
  let executiveSummary :=
    if isAIEnabled then
      match aiResult with
      | .ok text => text
      | .error _ =>
        generateExecutiveSummaryContent companyData financialAnalysis marketAnalysis
    else
      generateExecutiveSummaryContent companyData financialAnalysis marketAnalysis
  .ok ⟨true, executiveSummary⟩

/-! ## `TemplateService` -/

/-- A template descriptor from the registry. -/
structure Template where
  id : String
  name : String
  description : String
  sections : List String
deriving Inhabited

/-- The fixed template registry. -/
def templates : List (String × Template) :=
  [("standard-cim",
    { id := "standard-cim",
      name := "Standard CIM Template",
      description := "Comprehensive CIM template for investment banking",
      sections :=
        ["executiveSummary", "companyOverview", "marketAnalysis", "financialAnalysis",
         "investmentHighlights", "roiProjections", "riskFactors", "appendices"] }),
   ("tech-startup",
    { id := "tech-startup",
      name := "Technology Startup CIM",
      description := "Specialized template for technology companies",
      sections :=
        ["executiveSummary", "technologyOverview", "marketOpportunity", "businessModel",
         "financialProjections", "competitiveAnalysis", "teamAndAdvisors", "riskFactors"] }),
   ("manufacturing",
    { id := "manufacturing",
      name := "Manufacturing CIM Template",
      description := "Template optimized for manufacturing companies",
      sections :=
        ["executiveSummary", "operationsOverview", "marketPosition", "financialPerformance",
         "facilitiesAndCapacity", "supplyChain", "growthStrategy", "riskFactors"] })]

/-- `TemplateService.getTemplate`: an unknown id throws. -/
def getTemplate (templateId : String) : Except String Template :=
  match templates.lookup templateId with
  | some t => .ok t
  | none => .error ("Template not found: " ++ templateId)

/-! ## `CIMService` -/

/-- `CIMService.extractKeyHighlights`, applied to the analyzers' result
objects: `financialAnalysis.growthRate`, `financialAnalysis.profitMargin`
and `marketAnalysis.marketPosition` are `undefined` on those objects
(falsy, so their pushes never fire); `marketAnalysis.marketSize` is
pushed whenever truthy (non-zero). -/
def extractKeyHighlights (_financialAnalysis : FinAnalysis)
    (marketAnalysis : MktAnalysis) : List String :=
  if marketAnalysis.marketSize ≠ 0 then
    ["$" ++ qToString marketAnalysis.marketSize ++ "M addressable market"]
  else []

/-- `CIMService.generateInvestmentHighlights`, applied to the analyzers'
result objects: `financialAnalysis.keyMetrics` is `undefined` there, so
its default applies; `marketAnalysis.advantages` is an array (always
truthy in JS), so it is used as-is. -/
def generateInvestmentHighlights (_financialAnalysis : FinAnalysis)
    (marketAnalysis : MktAnalysis) : JSContent :=
  .obj
    [("strongFinancials", .str "Strong financial performance with consistent growth"),
     ("marketOpportunity",
      .str (if marketAnalysis.opportunity = "" then
              "Significant market opportunity with favorable dynamics"
            else marketAnalysis.opportunity)),
     ("competitiveAdvantage", .arr (marketAnalysis.advantages.map .str)),
     ("growthPotential", .str "Multiple avenues for organic and inorganic growth"),
     ("managementTeam", .str "Experienced management team with proven track record")]

/-- The five fixed default risk statements. -/
def defaultRisks : List String :=
  ["Market competition and competitive pressures",
   "Economic and industry cyclicality",
   "Regulatory and compliance requirements",
   "Key personnel and management retention",
   "Technology and operational risks"]

/-- `CIMService.extractRiskFactors`, applied to the analyzers' result
objects: `financialAnalysis.riskFactors` is `undefined` there;
`marketAnalysis.risks` is spread in; the five fixed defaults apply only
when the collected list is empty. -/
def extractRiskFactors (_financialAnalysis : FinAnalysis)
    (marketAnalysis : MktAnalysis) : List String :=
  let risks := marketAnalysis.risks
  if risks = [] then defaultRisks else risks

/-- The financial fields read by `generateFinancialChart` from
`rawFinancials = {...financialData, ...financialAnalysis.analysis}`
(the analyzer's defaulted arrays override the raw input ones). -/
structure RawFinancials where
  revenue : List ℝ
  ebitda : List ℝ
  netIncome : List ℝ

/-- `CIMService.generateFinancialChart`: the Chart.js `<canvas>` +
`<script>` embed appended to the financial-analysis section.  The
random canvas id suffix (`Math.random().toString(36).substr(2, 9)`) is
abstracted as the `rand` parameter; on the pipeline's inputs the arrays
are already arrays and `netIncome` is present, so `toArray` and the
`netIncome || netProfit` disjunction resolve as written here. -/
noncomputable def generateFinancialChart (rand : String)
    (financials : Option RawFinancials) : String :=
  match financials with
  | none => ""
  | some f =>
    let chartId := "finChart_" ++ rand
    let dataRev := jsonNumList f.revenue
    let dataEbitda := jsonNumList f.ebitda
    let dataProfit := jsonNumList f.netIncome
    "\n      <div style=\"width: 100%; height: 400px; margin: 20px 0; page-break-inside: avoid;\">\n        <canvas id=\""
      ++ chartId
      ++ "\"></canvas>\n      </div>\n      <script>\n        (function() \x7b\n          const ctx = document.getElementById(\x27"
      ++ chartId
      ++ "\x27).getContext(\x272d\x27);\n          new Chart(ctx, \x7b\n            type: \x27bar\x27,\n            data: \x7b\n              labels: [\x27Year 1\x27, \x27Year 2\x27, \x27Year 3\x27],\n              datasets: [\n                \x7b\n                  label: \x27Revenue\x27,\n                  data: "
      ++ dataRev
      ++ ",\n                  backgroundColor: \x27rgba(54, 162, 235, 0.7)\x27,\n                  borderColor: \x27rgba(54, 162, 235, 1)\x27,\n                  borderWidth: 1\n                \x7d,\n                \x7b\n                  label: \x27EBITDA\x27,\n                  data: "
      ++ dataEbitda
      ++ ",\n                  backgroundColor: \x27rgba(75, 192, 192, 0.7)\x27,\n                  borderColor: \x27rgba(75, 192, 192, 1)\x27,\n                  borderWidth: 1\n                \x7d,\n                \x7b\n                  label: \x27Net Profit\x27,\n                  data: "
      ++ dataProfit
      ++ ",\n                  backgroundColor: \x27rgba(153, 102, 255, 0.7)\x27,\n                  borderColor: \x27rgba(153, 102, 255, 1)\x27,\n                  borderWidth: 1\n                \x7d\n              ]\n            \x7d,\n            options: \x7b\n              responsive: true,\n              maintainAspectRatio: false,\n              animation: false, // Disable animation for PDF capture\n              plugins: \x7b\n                title: \x7b\n                  display: true,\n                  text: \x27Financial Performance History ($)\x27,\n                  font: \x7b size: 16 \x7d\n                \x7d,\n                legend: \x7b\n                  position: \x27bottom\x27\n                \x7d\n              \x7d,\n              scales: \x7b\n                y: \x7b\n                  beginAtZero: true,\n                  ticks: \x7b\n                    callback: function(value) \x7b\n                      return \x27$\x27 + (value / 1000000) + \x27M\x27;\n                    \x7d\n                  \x7d\n                \x7d\n              \x7d\n            \x7d\n          \x7d);\n          window.chartRendered = true; // Signal for Puppeteer\n        \x7d)();\n      </script>\n    "

/-- `CIMService.generateROITable`: the scenario-comparison table for the
ROI projections section (on the typed `Scenarios` the destructured
`baseCase` is always present, so the inner `if (!baseCase)` guard
cannot fire). -/
def generateROITable (scenarios : Option Scenarios) : String :=
  match scenarios with
  | none => ""
  | some s =>
    "\n      <strong>Scenario Comparison (Base / Upside / Downside)</strong>\n      <table class=\"financial-table\">\n        <thead>\n          <tr>\n            <th>Metric</th>\n            <th>Base Case</th>\n            <th>Upside Case</th>\n            <th>Downside Case</th>\n          </tr>\n        </thead>\n        <tbody>\n          <tr><td>Projected IRR</td><td>"
      ++ qToString s.baseCase.irr ++ "%</td><td>" ++ qToString s.optimistic.irr
      ++ "%</td><td>" ++ qToString s.conservative.irr
      ++ "%</td></tr>\n          <tr><td>Investment Multiple</td><td>"
      ++ qToString s.baseCase.multiple ++ "x</td><td>" ++ qToString s.optimistic.multiple
      ++ "x</td><td>" ++ qToString s.conservative.multiple
      ++ "x</td></tr>\n          <tr><td>Payback Period</td><td>"
      ++ qToString s.baseCase.payback ++ " Years</td><td>" ++ qToString s.optimistic.payback
      ++ " Years</td><td>" ++ qToString s.conservative.payback
      ++ " Years</td></tr>\n        </tbody>\n      </table>"

/-- JS `String.prototype.trim`: strip leading and trailing whitespace. -/
def jsTrim (s : String) : String :=
  String.mk (charTrim s.data)

/-- `.replace(/^\s*\*\*Executive Summary\*\*\s*/i, '')`. -/
def stripExecHeaderStars (s : String) : String :=
  let l1 := s.data.dropWhile isJSWhitespace
  if listLeadsWith (l1.map Char.toLower) "**executive summary**".data then
    String.mk ((l1.drop 21).dropWhile isJSWhitespace)
  else s

/-- `.replace(/^\s*##\s*Executive Summary\s*/i, '')`. -/
def stripExecHeaderMd (s : String) : String :=
  let l1 := s.data.dropWhile isJSWhitespace
  if listLeadsWith l1 "##".data then
    let l2 := (l1.drop 2).dropWhile isJSWhitespace
    if listLeadsWith (l2.map Char.toLower) "executive summary".data then
      String.mk ((l2.drop 17).dropWhile isJSWhitespace)
    else s
  else s

/-- The executive-summary section content: strip a leading
`**Executive Summary**` or `## Executive Summary` heading and trim. -/
def cleanExecSummary (executiveSummary : String) : String :=
  jsTrim (stripExecHeaderMd (stripExecHeaderStars executiveSummary))

/-- The fixed Growth Strategy block appended to the market analysis
section. -/
def growthStrategyBlock : String :=
  "\n\n**Growth Strategy:**\nTo capture market share, the company will focus on:\n• Accelerating product innovation and feature development\n• expanding sales channels and strategic partnerships\n• Targeting adjacent market segments for organic growth"

/-- The market-analysis augmentation from `compileCIMContent`:
`content + (content.includes('Growth Strategy') ? '' : block)`. -/
def augmentGrowthStrategy (content : String) : String :=
  content ++ (if strIncludes content "Growth Strategy" then "" else growthStrategyBlock)

/-- Interpolation of a possibly-`undefined` string into a JS template
literal. -/
def jsStr (v : Option String) : String := v.getD "undefined"

/-- Document metadata. -/
structure Metadata where
  title : String
  company : Option String
  industry : Option String
  generatedAt : String
  templateId : String

/-- The compiled CIM content: metadata plus the section map (modelled
as the association list of the object literal, in source order). -/
structure CIMContent where
  metadata : Metadata
  sections : List (String × Section)

/-- An `undefined`-able string as section sub-content. -/
def optStrContent : Option String → JSContent
  | none => .undef
  | some s => .str s

/-- `CIMService.compileCIMContent`: assembles the eight fixed sections
with orders 1..8.  `now` stands for `new Date().toISOString()` and
`rand` for the chart's random id suffix. -/
noncomputable def compileCIMContent (rand now : String) (template : Template)
    (company : Company) (financialAnalysis : FinAnalysis)
    (marketAnalysis : MktAnalysis) (roiProjections : ROIAnalysis)
    (executiveSummary : String) (rawFinancials : Option RawFinancials) :
    CIMContent :=
  { metadata :=
      { title := jsStr company.name ++ " - Confidential Information Memorandum",
        company := company.name,
        industry := company.industry,
        generatedAt := now,
        templateId := template.id },
    sections :=
      [("executiveSummary",
        { title := "Executive Summary",
          content := .str (cleanExecSummary executiveSummary),
          order := 1 }),
       ("companyOverview",
        { title := "Company Overview",
          content := .obj
            [("description", optStrContent company.description),
             ("industry", optStrContent company.industry),
             ("keyHighlights",
              .arr ((extractKeyHighlights financialAnalysis marketAnalysis).map .str))],
          order := 2 }),
       ("marketAnalysis",
        { title := "Market Analysis & Opportunity",
          content := .str (augmentGrowthStrategy marketAnalysis.content),
          order := 3 }),
       ("financialAnalysis",
        { title := "Financial Analysis & Performance",
          content := .str (financialAnalysis.content
            ++ generateFinancialChart rand rawFinancials),
          order := 4 }),
       ("investmentHighlights",
        { title := "Investment Highlights",
          content := generateInvestmentHighlights financialAnalysis marketAnalysis,
          order := 5 }),
       ("roiProjections",
        { title := "Financial Projections & Returns",
          content := .str (generateROITable (some roiProjections.scenarios)),
          order := 6 }),
       ("riskFactors",
        { title := "Risk Factors",
          content := .arr ((extractRiskFactors financialAnalysis marketAnalysis).map .str),
          order := 7 }),
       ("appendices",
        { title := "Appendices",
          content := .obj
            [("financialStatements",
              .str "Detailed financial statements and supporting documents"),
             ("marketResearch", .str "Industry reports and market research data"),
             ("legalDocuments", .str "Corporate structure and legal documentation")],
          order := 8 })] }

/-- `CIMService.generateCIMContent`: the full pipeline — template
lookup, the three analyzers (run concurrently in the source; they are
pure and independent, so their parallel composition equals this
sequential one), the narrative synthesizer, then section compilation.
The `{success, analysis}` envelopes of the `AIService` wrappers are
unwrapped exactly as in the source. -/
noncomputable def generateCIMContent (rand now : String) (isAIEnabled : Bool)
    (aiResult : Except Unit String) (company : Company)
    (financialData : FinancialData) (industryData : Option IndustryData)
    (assumptions : Option Assumptions) (templateId : String) :
    Except String CIMContent := do
  let template ← getTemplate templateId
  let financialAnalysis := generateFinancialAnalysis financialData
  let marketAnalysis := generateMarketAnalysisContent (some company) industryData
  let roiProjections := generateROIAnalysis financialData assumptions
  let execResult ← generateExecutiveSummary isAIEnabled aiResult (some company)
    (some financialAnalysis) (some marketAnalysis)
  pure (compileCIMContent rand now template company financialAnalysis marketAnalysis
    roiProjections execResult.executiveSummary
    (some ⟨financialAnalysis.revenue, financialAnalysis.ebitda, financialAnalysis.netIncome⟩))

/-- The five sections `validateCIMContent` requires. -/
def requiredSections : List String :=
  ["executiveSummary", "companyOverview", "marketAnalysis", "financialAnalysis",
   "roiProjections"]

/-- `CIMService.validateCIMContent`: missing required sections are a
fatal error. -/
def validateCIMContent (content : CIMContent) : Except String Bool :=
  let missingSections :=
    requiredSections.filter (fun s => (content.sections.lookup s).isNone)
  if missingSections ≠ [] then
    .error ("Missing required CIM sections: " ++ String.intercalate ", " missingSections)
  else .ok true

/-! ## `PDFService` -/

/-- The financial series embedded in an exported document
(`data.content.financialData`): plain caller-supplied numbers. -/
structure ChartData where
  years : Option (List ℚ) := none
  revenue : Option (List ℚ) := none
  ebitda : Option (List ℚ) := none

/-- `Math.max(...)` over a spread numeric list (only applied to
non-empty lists in the source). -/
def qListMax : List ℚ → ℚ
  | [] => 0
  | x :: xs => xs.foldl max x

/-- `PDFService.generateSVGChart`: the vector line/area chart of revenue
and EBITDA.  An empty revenue series yields the empty string (no
placeholder chart).  Division is exact rational division (in the
degenerate one-year case JS would emit `Infinity`/`NaN` coordinate
strings; no claim depends on that corner). -/
def generateSVGChart (financialData : ChartData) : String :=
  let years := financialData.years.getD [2020, 2021, 2022, 2023, 2024]
  let revenue := financialData.revenue.getD []
  let ebitda := financialData.ebitda.getD []
  if revenue.length = 0 then ""
  else
    let width : ℚ := 600
    let height : ℚ := 250
    let padding : ℚ := 40
    let chartWidth := width - padding * 2
    let chartHeight := height - padding * 2
    let maxVal := qListMax (revenue ++ ebitda) * 1.1
    let minVal : ℚ := 0
    let getX := fun (index : ℕ) =>
      padding + index * (chartWidth / ((years.length : ℚ) - 1))
    let getY := fun (v : ℚ) =>
      height - padding - ((v - minVal) / (maxVal - minVal) * chartHeight)
    let _revPoints := String.intercalate " "
      (revenue.enum.map (fun iv => qToString (getX iv.1) ++ "," ++ qToString (getY iv.2)))
    let _ebitdaPoints := String.intercalate " "
      (ebitda.enum.map (fun iv => qToString (getX iv.1) ++ "," ++ qToString (getY iv.2)))
    let revPath := String.intercalate " "
      (revenue.enum.map (fun iv =>
        (if iv.1 = 0 then "M" else "L") ++ " " ++ qToString (getX iv.1) ++ " "
          ++ qToString (getY iv.2)))
    let ebitdaPath := String.intercalate " "
      (ebitda.enum.map (fun iv =>
        (if iv.1 = 0 then "M" else "L") ++ " " ++ qToString (getX iv.1) ++ " "
          ++ qToString (getY iv.2)))
    "\n      <svg width=\"" ++ qToString width ++ "\" height=\"" ++ qToString height
      ++ "\" viewBox=\"0 0 " ++ qToString width ++ " " ++ qToString height
      ++ "\" xmlns=\"http://www.w3.org/2000/svg\">\n        <!-- Grid Lines -->\n        <line x1=\""
      ++ qToString padding ++ "\" y1=\"" ++ qToString padding ++ "\" x2=\""
      ++ qToString padding ++ "\" y2=\"" ++ qToString (height - padding)
      ++ "\" stroke=\"#ddd\" stroke-width=\"1\" />\n        <line x1=\""
      ++ qToString padding ++ "\" y1=\"" ++ qToString (height - padding) ++ "\" x2=\""
      ++ qToString (width - padding) ++ "\" y2=\"" ++ qToString (height - padding)
      ++ "\" stroke=\"#ddd\" stroke-width=\"1\" />\n        \n        <!-- Y-Axis Labels (Top and Median) -->\n        <text x=\""
      ++ qToString (padding - 5) ++ "\" y=\"" ++ qToString (padding + 5)
      ++ "\" text-anchor=\"end\" font-size=\"10\" fill=\"#666\">$"
      ++ qToFixed1 (maxVal / 1000000)
      ++ "M</text>\n        <text x=\"" ++ qToString (padding - 5) ++ "\" y=\""
      ++ qToString (height / 2)
      ++ "\" text-anchor=\"end\" font-size=\"10\" fill=\"#666\">$"
      ++ qToFixed1 (maxVal / 2000000)
      ++ "M</text>\n        \n        <!-- X-Axis Labels -->\n        "
      ++ String.join (years.enum.map (fun iy =>
          "<text x=\"" ++ qToString (getX iy.1) ++ "\" y=\""
            ++ qToString (height - padding + 20)
            ++ "\" text-anchor=\"middle\" font-size=\"10\" fill=\"#666\">"
            ++ qToString iy.2 ++ "</text>"))
      ++ "\n\n        <!-- Revenue Area -->\n        <path d=\"" ++ revPath ++ " L "
      ++ qToString (getX (years.length - 1)) ++ " " ++ qToString (height - padding)
      ++ " L " ++ qToString padding ++ " " ++ qToString (height - padding)
      ++ " Z\" fill=\"#1976d2\" fill-opacity=\"0.1\" />\n        <path d=\"" ++ revPath
      ++ "\" fill=\"none\" stroke=\"#1976d2\" stroke-width=\"3\" />\n        \n        <!-- EBITDA Area -->\n        <path d=\""
      ++ ebitdaPath ++ " L " ++ qToString (getX (years.length - 1)) ++ " "
      ++ qToString (height - padding) ++ " L " ++ qToString padding ++ " "
      ++ qToString (height - padding)
      ++ " Z\" fill=\"#4caf50\" fill-opacity=\"0.2\" />\n        <path d=\"" ++ ebitdaPath
      ++ "\" fill=\"none\" stroke=\"#4caf50\" stroke-width=\"3\" />\n\n        <!-- Data Points -->\n        "
      ++ String.join (revenue.enum.map (fun iv =>
          "<circle cx=\"" ++ qToString (getX iv.1) ++ "\" cy=\""
            ++ qToString (getY iv.2) ++ "\" r=\"4\" fill=\"#1976d2\" />"))
      ++ "\n        "
      ++ String.join (ebitda.enum.map (fun iv =>
          "<circle cx=\"" ++ qToString (getX iv.1) ++ "\" cy=\""
            ++ qToString (getY iv.2) ++ "\" r=\"4\" fill=\"#4caf50\" />"))
      ++ "\n      </svg>\n    "

/-- The `content` payload handed to `PDFService.generateCIMPDF`. -/
structure PDFContent where
  financialData : Option ChartData := none
  sections : Option (List (String × Section)) := none

/-- The document payload handed to `PDFService.generateCIMPDF` /
`generateHTMLContent`. -/
structure PDFData where
  title : Option String := none
  company : Option Company := none
  content : Option PDFContent := none

/-- The `<head>`/page-header part of the built-in default template
(`getDefaultTemplate`), instantiated with `{{title}}`, `{{company.name}}`
and `{{generatedDate}}` (handlebars renders a missing value as the
empty string). -/
def defaultTemplateHead (title companyName generatedDate : String) : String :=
  "\n<!DOCTYPE html>\n<html>\n<head>\n    <meta charset=\"utf-8\">\n    <title>"
    ++ title
    ++ "</title>\n    <style>\n        body \x7b\n            font-family: \x27Arial\x27, sans-serif;\n            line-height: 1.4; /* Slightly tighter */\n            color: #333;\n            max-width: 800px;\n            margin: 0 auto;\n            padding: 10px;\n        \x7d\n        .header \x7b\n            text-align: center;\n            border-bottom: 3px solid #1976d2;\n            padding-bottom: 10px;\n            margin-bottom: 15px;\n        \x7d\n        .company-name \x7b\n            font-size: 24px;\n            font-weight: bold;\n            color: #1976d2;\n            margin-bottom: 5px;\n        \x7d\n        .document-title \x7b\n            font-size: 16px;\n            color: #666;\n        \x7d\n        .section \x7b\n            margin-bottom: 15px; /* Tighter section spacing */\n            page-break-inside: auto; \n        \x7d\n        .section-title \x7b\n            font-size: 18px;\n            font-weight: bold;\n            color: #1976d2;\n            border-bottom: 1px solid #ddd;\n            padding-bottom: 3px;\n            margin-bottom: 8px;\n            margin-top: 5px;\n        \x7d\n        .section-content \x7b\n            font-size: 13px;\n            line-height: 1.5;\n        \x7d\n        .highlight-box \x7b\n            background-color: #f8f9fa;\n            padding: 10px;\n            margin: 10px 0;\n            border-radius: 4px;\n        \x7d\n        .financial-table \x7b\n            width: 100%;\n            border-collapse: collapse;\n            margin: 10px 0;\n            page-break-inside: avoid;\n        \x7d\n        .financial-table th,\n        .financial-table td \x7b\n            border: 1px solid #ddd;\n            padding: 6px;\n            text-align: left;\n        \x7d\n        .financial-table th \x7b\n            background-color: #f2f2f2;\n            font-weight: bold;\n        \x7d\n        .footer \x7b\n            margin-top: 30px;\n            text-align: center;\n            font-size: 11px;\n            color: #666;\n            border-top: 1px solid #ddd;\n            padding-top: 15px;\n        \x7d\n    </style>\n</head>\n<body>\n    <div class=\"header\">\n        <div class=\"company-name\">"
    ++ companyName
    ++ "</div>\n        <div class=\"document-title\">Confidential Information Memorandum</div>\n        <div style=\"font-size: 12px; color: #666; margin-top: 10px;\">\n            Generated on "
    ++ generatedDate
    ++ "\n        </div>\n    </div>\n"

/-- A plain section block of the default template. -/
def sectionBlock (s : FormattedSection) : String :=
  "\n    <div class=\"section\">\n        <div class=\"section-title\">" ++ s.title
    ++ "</div>\n        <div class=\"section-content\">\n            " ++ s.content
    ++ "\n        </div>\n    </div>\n    "

/-- The executive-summary block (content inside a highlight box). -/
def execSummaryBlock (s : FormattedSection) : String :=
  "\n    <div class=\"section\">\n        <div class=\"section-title\">" ++ s.title
    ++ "</div>\n        <div class=\"section-content\">\n            <div class=\"highlight-box\">\n                "
    ++ s.content
    ++ "\n            </div>\n        </div>\n    </div>\n    "

/-- The chart wrapper inside the financial-analysis block, emitted only
when `{{#if chartSvg}}` holds (non-empty chart markup). -/
def chartEmbed (chartSvg : String) : String :=
  if chartSvg = "" then ""
  else
    "\n            <div style=\"text-align: center; margin: 20px 0; background: #fff; border: 1px solid #eee; border-radius: 8px; padding: 15px;\">\n                <div style=\"font-size: 14px; font-weight: bold; margin-bottom: 10px; color: #333;\">Company Financial Growth (5-Year Trajectory)</div>\n                "
      ++ chartSvg
      ++ "\n                <div style=\"margin-top: 10px; display: flex; justify-content: center; gap: 20px; font-size: 12px;\">\n                    <span style=\"display: flex; alignItems: center; gap: 5px;\">\n                        <span style=\"display: inline-block; width: 12px; height: 12px; background: #1976d2;\"></span> Revenue (Historical)\n                    </span>\n                    <span style=\"display: flex; alignItems: center; gap: 5px;\">\n                        <span style=\"display: inline-block; width: 12px; height: 12px; background: #4caf50;\"></span> EBITDA (Historical)\n                    </span>\n                </div>\n            </div>\n            "

/-- The financial-analysis block: optional chart embed, then content. -/
def financialBlock (s : FormattedSection) (chartSvg : String) : String :=
  "\n    <div class=\"section\">\n        <div class=\"section-title\">" ++ s.title
    ++ "</div>\n        <div class=\"section-content\">\n            " ++ chartEmbed chartSvg
    ++ "\n            " ++ s.content ++ "\n        </div>\n    </div>\n    "

/-- The footer of the default template. -/
def defaultTemplateFooter : String :=
  "\n    <div class=\"footer\">\n        <p><strong>CONFIDENTIAL AND PROPRIETARY</strong></p>\n        <p>This document contains confidential and proprietary information. \n           Distribution is restricted to authorized parties only.</p>\n    </div>\n</body>\n</html>\n    "

/-- The compiled default template applied to the template data: each
`{{#if sections.X}}` block renders exactly when the section key is
present. -/
def renderDefaultTemplate (title companyName generatedDate : String)
    (sections : List (String × FormattedSection)) (chartSvg : String) : String :=
  defaultTemplateHead title companyName generatedDate
    ++ (match sections.lookup "executiveSummary" with
        | some s => execSummaryBlock s
        | none => "")
    ++ (match sections.lookup "companyOverview" with
        | some s => sectionBlock s
        | none => "")
    ++ (match sections.lookup "marketAnalysis" with
        | some s => sectionBlock s
        | none => "")
    ++ (match sections.lookup "financialAnalysis" with
        | some s => financialBlock s chartSvg
        | none => "")
    ++ (match sections.lookup "roiProjections" with
        | some s => sectionBlock s
        | none => "")
    ++ (match sections.lookup "riskFactors" with
        | some s => sectionBlock s
        | none => "")
    ++ defaultTemplateFooter

/-- `PDFService.generateHTMLContent`: computes the chart markup from
`data.content.financialData || {}`, formats the sections, and compiles
the template.  The repository ships no `templates/cim-template.html`,
so `loadTemplate` falls back to the built-in default template;
compiling that fixed template cannot fail, so the `catch` branch
(`HTML generation failed`) is unreachable and the result is always
`.ok`.  `generatedDate` stands for `new Date().toLocaleDateString()`. -/
def generateHTMLContent (generatedDate : String) (data : PDFData) :
    Except String String :=
  let financialData := (data.content.bind (·.financialData)).getD {}
  let chartSvg := generateSVGChart financialData
  let sections := formatSectionsForTemplate ((data.content.bind (·.sections)).getD [])
  .ok (renderDefaultTemplate ((data.title).getD "")
    ((data.company.bind (·.name)).getD "") generatedDate sections chartSvg)

/-! ## General string lemmas -/

theorem ne_empty_of_length_pos {a : String} (h : 0 < a.length) : a ≠ "" := by
  intro he
  subst he
  simp at h

theorem append_left_ne_empty (a b : String) (h : a ≠ "") : a ++ b ≠ "" := by
  intro he
  apply h
  have hd : a.data ++ b.data = [] := by
    have := congrArg String.data he
    rwa [String.data_append] at this
  exact String.ext (List.append_eq_nil.mp hd).1

theorem listHasRun_append_right {pat b : List Char}
    (h : listHasRun pat b = true) (a : List Char) :
    listHasRun pat (a ++ b) = true := by
  induction a with
  | nil => simpa using h
  | cons c cs ih =>
    rw [List.cons_append, listHasRun, ih]
    simp

theorem strIncludes_append_right (a b pat : String)
    (h : strIncludes b pat = true) : strIncludes (a ++ b) pat = true := by
  unfold strIncludes at h ⊢
  rw [String.data_append]
  exact listHasRun_append_right h a.data

/-! ## C8: idempotence of the Growth Strategy augmentation -/

/-- C8: augmenting a market-analysis section's content with the fixed
"Growth Strategy" block is idempotent: for every content string,
applying `compileCIMContent`'s augmentation twice yields the same
content as applying it once (the block is appended only when
`'Growth Strategy'` is not already present, and the appended block
itself contains that marker, so it is never duplicated). -/
theorem augmentGrowthStrategy_idempotent (content : String) :
    augmentGrowthStrategy (augmentGrowthStrategy content)
      = augmentGrowthStrategy content := by
  unfold augmentGrowthStrategy
  by_cases h : strIncludes content "Growth Strategy" = true
  · simp [h]
  · have hb : strIncludes growthStrategyBlock "Growth Strategy" = true := by decide
    have h2 : strIncludes (content ++ growthStrategyBlock) "Growth Strategy" = true :=
      strIncludes_append_right _ _ _ hb
    simp [h, h2]

/-! ## C1: the narrative synthesizer never propagates an AI failure -/

theorem generateExecutiveSummaryContent_ne_empty (companyData : Option Company)
    (fin : Option FinAnalysis) (mkt : Option MktAnalysis) :
    generateExecutiveSummaryContent companyData fin mkt ≠ "" := by
  apply ne_empty_of_length_pos
  unfold generateExecutiveSummaryContent
  simp only [String.length_append]
  have h : 0 < ("\n**Executive Summary**\n\n**Investment Opportunity:**\n" : String).length := by
    decide
  omega

/-- C1: for every company, financial-analysis and market-analysis
input, if the AI backend is disabled or its call fails for any reason,
`generateExecutiveSummary` still returns successfully, with the
deterministic template summary, which is non-empty; the AI failure is
never surfaced to the caller. -/
theorem generateExecutiveSummary_fallback (isAIEnabled : Bool)
    (aiResult : Except Unit String) (companyData : Option Company)
    (fin : Option FinAnalysis) (mkt : Option MktAnalysis)
    (h : isAIEnabled = false ∨ ∃ e, aiResult = .error e) :
    generateExecutiveSummary isAIEnabled aiResult companyData fin mkt =
      .ok ⟨true, generateExecutiveSummaryContent companyData fin mkt⟩ ∧
    generateExecutiveSummaryContent companyData fin mkt ≠ "" := by
  refine ⟨?_, generateExecutiveSummaryContent_ne_empty _ _ _⟩
  unfold generateExecutiveSummary
  rcases h with h | ⟨e, he⟩
  · rw [h]
    rfl
  · subst he
    cases isAIEnabled <;> rfl

/-- Closed witness for C1: with the backend disabled, the deterministic
template is returned and is non-empty. -/
theorem generateExecutiveSummary_fallback_witness :
    generateExecutiveSummary false (.ok "ai text") none none none =
      .ok ⟨true, generateExecutiveSummaryContent none none none⟩ ∧
    generateExecutiveSummaryContent none none none ≠ "" :=
  generateExecutiveSummary_fallback false (.ok "ai text") none none none (Or.inl rfl)

/-! ## Evaluation lemmas for the ECMAScript number operations -/

theorem jsDiv_num_num {x y : ℝ} (hy : y ≠ 0) :
    JSNum.div (.num x) (.num y) = .num (x / y) := by
  simp [JSNum.div, hy]

theorem jsDiv_pos_zero {x : ℝ} (hx : 0 < x) :
    JSNum.div (.num x) (.num 0) = .inf := by
  simp [JSNum.div, hx.ne', hx]

theorem jsDiv_neg_zero {x : ℝ} (hx : x < 0) :
    JSNum.div (.num x) (.num 0) = .negInf := by
  simp [JSNum.div, hx.ne, not_lt.mpr hx.le]

theorem jsDiv_zero_zero : JSNum.div (.num 0) (.num 0) = .nan := by
  simp [JSNum.div]

theorem jsDiv_nan_left (b : JSNum) : JSNum.div .nan b = .nan := by
  cases b <;> rfl

theorem jsSub_num_num (x y : ℝ) : JSNum.sub (.num x) (.num y) = .num (x - y) := rfl

theorem jsSub_nan_left (b : JSNum) : JSNum.sub .nan b = .nan := by
  cases b <;> rfl

theorem jsMul_num_num (x y : ℝ) : JSNum.mul (.num x) (.num y) = .num (x * y) := rfl

theorem jsMul_nan_left (b : JSNum) : JSNum.mul .nan b = .nan := by
  cases b <;> rfl

theorem jsMul_inf_pos {y : ℝ} (hy : 0 < y) : JSNum.mul .inf (.num y) = .inf := by
  simp [JSNum.mul, hy.ne', hy]

theorem jsMul_negInf_pos {y : ℝ} (hy : 0 < y) :
    JSNum.mul .negInf (.num y) = .negInf := by
  simp [JSNum.mul, hy.ne', hy]

theorem jsPow_pos_base {x y : ℝ} (hx : 0 < x) (hy : y ≠ 0) :
    JSNum.pow (.num x) (.num y) = .num (x ^ y) := by
  simp [JSNum.pow, hy, hx]

theorem jsPow_neg_base_nonint {x y : ℝ} (hx : x < 0) (hy0 : y ≠ 0)
    (hy : ((⌊y⌋ : ℝ)) ≠ y) : JSNum.pow (.num x) (.num y) = .nan := by
  simp [JSNum.pow, hy0, not_lt.mpr hx.le, hx.ne, hy]

theorem jsPow_one_inf : JSNum.pow (.num 1) .inf = .nan := by
  simp [JSNum.pow]

theorem jsPow_nan_inf : JSNum.pow .nan .inf = .nan := rfl

/-! ## Projection lemmas for the Financial Analyzer -/

/-- The default revenue series. -/
def defaultRevenue : List ℝ := [1200000, 1500000, 1800000, 2500000, 3200000]

/-- The default net-income series. -/
def defaultNetIncome : List ℝ := [180000, 225000, 270000, 375000, 480000]

theorem genFin_cagr (fd : FinancialData) :
    (generateFinancialAnalysis fd).cagr =
      JSNum.sub
        (JSNum.pow
          (JSNum.div (jsLast (fd.revenue.getD defaultRevenue))
            (jsHead (fd.revenue.getD defaultRevenue)))
          (JSNum.div (.num 1)
            (.num (((fd.revenue.getD defaultRevenue).length : ℝ) - 1))))
        (.num 1) := rfl

theorem genFin_profitMargin (fd : FinancialData) :
    (generateFinancialAnalysis fd).profitMargin =
      JSNum.mul
        (JSNum.div (jsLast (fd.netIncome.getD defaultNetIncome))
          (jsLast (fd.revenue.getD defaultRevenue)))
        (.num 100) := rfl

theorem genFin_trend (fd : FinancialData) :
    (generateFinancialAnalysis fd).growthAnalysis.trend =
      (if JSNum.gtR (generateFinancialAnalysis fd).cagr 0.15 then "Strong growth"
       else if JSNum.gtR (generateFinancialAnalysis fd).cagr 0.05 then "Moderate growth"
       else "Steady growth") := rfl

/-- General evaluation of the analyzer's CAGR on a series with positive
first and last values: exactly `(last/first) ^ (1/(n-1)) - 1` (real
exponentiation). -/
theorem genFin_cagr_eval (fd : FinancialData) (rs : List ℝ) (f l : ℝ)
    (hrev : fd.revenue = some rs) (h1 : rs.head? = some f)
    (h2 : rs.getLast? = some l) (hf : 0 < f) (hl : 0 < l)
    (hn : 2 ≤ rs.length) :
    (generateFinancialAnalysis fd).cagr
      = .num ((l / f) ^ (1 / ((rs.length : ℝ) - 1)) - 1) := by
  have hhead : jsHead rs = .num f := by
    cases rs with
    | nil => simp at h1
    | cons a t =>
      simp only [List.head?_cons, Option.some.injEq] at h1
      rw [jsHead, h1]
  have hlast : jsLast rs = .num l := by
    rw [jsLast, h2]
  have hne : ((rs.length : ℝ) - 1) ≠ 0 := by
    have : (2 : ℝ) ≤ (rs.length : ℝ) := by exact_mod_cast hn
    intro hx
    nlinarith
  have hratio : (0 : ℝ) < l / f := div_pos hl hf
  have hexp : (1 : ℝ) / ((rs.length : ℝ) - 1) ≠ 0 := one_div_ne_zero hne
  rw [genFin_cagr, hrev, Option.getD_some, hhead, hlast,
    jsDiv_num_num hf.ne', jsDiv_num_num hne, jsPow_pos_base hratio hexp,
    jsSub_num_num]

/-! ## C3: the reported CAGR matches the specified formula -/

/-- C3 counterexample: for the series `[1, 1, -1]` (n = 3, first value
`1 > 0`, negative values are legal input per the data model) the
reported CAGR is `NaN` — `Math.pow` of a negative base with exponent
`1/2` — so it does not equal the real-valued formula
`(last/first)^(1/(n-1)) - 1`. -/
theorem cagr_formula_counterexample :
    (generateFinancialAnalysis { revenue := some [1, 1, -1] }).cagr = JSNum.nan ∧
    JSNum.nan ≠ JSNum.num (((-1 : ℝ) / 1) ^ (1 / ((3 : ℝ) - 1)) - 1) := by
  constructor
  · have hlast : jsLast [1, 1, -1] = .num (-1) := rfl
    have hhead : jsHead [1, 1, -1] = .num 1 := rfl
    rw [genFin_cagr]
    simp only [Option.getD_some, hlast, hhead, List.length_cons, List.length_nil]
    rw [jsDiv_num_num (by norm_num : (1 : ℝ) ≠ 0),
      jsDiv_num_num (by norm_num : ((0 + 1 + 1 + 1 : ℕ) : ℝ) - 1 ≠ 0)]
    rw [jsPow_neg_base_nonint (by norm_num) (by norm_num)
      (by norm_num : ((⌊(1 : ℝ) / (((0 + 1 + 1 + 1 : ℕ) : ℝ) - 1)⌋ : ℝ)) ≠ _)]
    exact jsSub_nan_left _
  · simp

/-- C3 (amended): for every financial series whose revenue list has
`n ≥ 2` entries and whose first **and last** revenue values are
strictly positive, the reported CAGR equals `(last/first)^(1/(n-1)) - 1`
exactly (real exponentiation; the implementation computes this very
expression).  Without the positivity of the last value the claim fails:
see `cagr_formula_counterexample`. -/
theorem cagr_matches_formula (fd : FinancialData) (rs : List ℝ) (f l : ℝ)
    (hrev : fd.revenue = some rs) (h1 : rs.head? = some f)
    (h2 : rs.getLast? = some l) (hf : 0 < f) (hl : 0 < l)
    (hn : 2 ≤ rs.length) :
    (generateFinancialAnalysis fd).cagr
      = .num ((l / f) ^ (1 / ((rs.length : ℝ) - 1)) - 1) :=
  genFin_cagr_eval fd rs f l hrev h1 h2 hf hl hn

/-- Closed witness for C3 at the two-entry series `[100, 120]`. -/
theorem cagr_matches_formula_witness :
    (generateFinancialAnalysis { revenue := some [100, 120] }).cagr
      = .num (((120 : ℝ) / 100) ^ (1 / ((([100, 120] : List ℝ).length : ℝ) - 1)) - 1) :=
  cagr_matches_formula _ [100, 120] 100 120 rfl rfl rfl (by norm_num) (by norm_num)
    (by norm_num)

/-! ## C4: a single-entry series -/

/-- Shared evaluation: for a one-entry revenue series the implementation
computes `Math.pow(r/r, 1/0) - 1`; `1/0` is `+Infinity` and
`Math.pow(1, Infinity)` (or `Math.pow(NaN, Infinity)` when `r = 0`) is
`NaN`, so the reported CAGR is `NaN`. -/
theorem genFin_cagr_single (fd : FinancialData) (r : ℝ)
    (hrev : fd.revenue = some [r]) :
    (generateFinancialAnalysis fd).cagr = JSNum.nan := by
  have hlast : jsLast [r] = .num r := rfl
  have hhead : jsHead [r] = .num r := rfl
  rw [genFin_cagr, hrev]
  simp only [Option.getD_some, hlast, hhead, List.length_cons, List.length_nil]
  have hz : (((0 + 1 : ℕ) : ℝ)) - 1 = 0 := by norm_num
  rw [hz, jsDiv_pos_zero (by norm_num : (0 : ℝ) < 1)]
  by_cases hr : r = 0
  · subst hr
    rw [jsDiv_zero_zero, jsPow_nan_inf]
    exact jsSub_nan_left _
  · rw [jsDiv_num_num hr, div_self hr, jsPow_one_inf]
    exact jsSub_nan_left _

/-- C4 (amended): for every financial series with exactly one revenue
entry, the analyzer does **not** report CAGR as not-applicable: it
computes it anyway, and the reported CAGR is `NaN` (rendered `NaN%` in
the narrative).  There is no `n == 1` guard in the implementation. -/
theorem cagr_single_entry_nan (fd : FinancialData) (r : ℝ)
    (hrev : fd.revenue = some [r]) :
    (generateFinancialAnalysis fd).cagr = JSNum.nan :=
  genFin_cagr_single fd r hrev

/-- Closed witness for C4 at the series `[5]`. -/
theorem cagr_single_entry_nan_witness :
    (generateFinancialAnalysis { revenue := some [5] }).cagr = JSNum.nan :=
  cagr_single_entry_nan _ 5 rfl

/-- C4 counterexample: for the one-entry series `[7]` the reported CAGR
is `NaN`, falsifying "CAGR is reported as not-applicable rather than
computed, and never NaN or Infinity". -/
theorem cagr_single_entry_counterexample :
    (generateFinancialAnalysis { revenue := some [7] }).cagr = JSNum.nan :=
  genFin_cagr_single _ 7 rfl

/-! ## C5: margin on a zero last revenue -/

/-- Shared evaluation: with a zero last revenue value, the margin
division is unguarded; the computation completes (no exception — JS
division never throws) but yields `Infinity`, `-Infinity` or `NaN`
depending on the sign of the last net income. -/
theorem genFin_margin_zero (fd : FinancialData) (rs : List ℝ)
    (hrev : fd.revenue = some rs) (hlast : rs.getLast? = some 0) :
    (generateFinancialAnalysis fd).profitMargin = JSNum.inf ∨
    (generateFinancialAnalysis fd).profitMargin = JSNum.negInf ∨
    (generateFinancialAnalysis fd).profitMargin = JSNum.nan := by
  have hrl : jsLast rs = .num 0 := by rw [jsLast, hlast]
  rw [genFin_profitMargin, hrev, Option.getD_some, hrl]
  cases hni : (fd.netIncome.getD defaultNetIncome).getLast? with
  | none =>
    rw [jsLast, hni, jsDiv_nan_left, jsMul_nan_left]
    exact Or.inr (Or.inr rfl)
  | some y =>
    rw [jsLast, hni]
    rcases lt_trichotomy y 0 with hy | hy | hy
    · rw [jsDiv_neg_zero hy, jsMul_negInf_pos (by norm_num : (0:ℝ) < 100)]
      exact Or.inr (Or.inl rfl)
    · subst hy
      rw [jsDiv_zero_zero, jsMul_nan_left]
      exact Or.inr (Or.inr rfl)
    · rw [jsDiv_pos_zero hy, jsMul_inf_pos (by norm_num : (0:ℝ) < 100)]
      exact Or.inl rfl

/-- C5 counterexample: for the series `[2000000, 0]` (last revenue `0`)
the margin divides the default last net income `480000` by `0`,
reporting `Infinity` (rendered `Infinity%`), not "not applicable" —
there is no zero-revenue guard in the implementation. -/
theorem margin_zero_revenue_counterexample :
    (generateFinancialAnalysis { revenue := some [2000000, 0] }).profitMargin
      = JSNum.inf := by
  have hrl : jsLast [(2000000 : ℝ), 0] = .num 0 := rfl
  have hni : jsLast defaultNetIncome = .num 480000 := rfl
  rw [genFin_profitMargin]
  simp only [Option.getD_some, Option.getD_none, hrl, hni]
  rw [jsDiv_pos_zero (by norm_num : (0:ℝ) < 480000),
    jsMul_inf_pos (by norm_num : (0:ℝ) < 100)]

/-- C5 (amended): for every financial series whose **last** revenue
value is zero, the margin computation completes without throwing, but
the reported margin is `Infinity`, `-Infinity` or `NaN` (by the sign of
the last net income) rather than a not-applicable marker: zero revenue
is *not* guarded. -/
theorem margin_zero_revenue (fd : FinancialData) (rs : List ℝ)
    (hrev : fd.revenue = some rs) (hlast : rs.getLast? = some 0) :
    (generateFinancialAnalysis fd).profitMargin = JSNum.inf ∨
    (generateFinancialAnalysis fd).profitMargin = JSNum.negInf ∨
    (generateFinancialAnalysis fd).profitMargin = JSNum.nan :=
  genFin_margin_zero fd rs hrev hlast

/-- Closed witness for C5 at the series `[1000000, 0]`. -/
theorem margin_zero_revenue_witness :
    (generateFinancialAnalysis { revenue := some [1000000, 0] }).profitMargin
        = JSNum.inf ∨
    (generateFinancialAnalysis { revenue := some [1000000, 0] }).profitMargin
        = JSNum.negInf ∨
    (generateFinancialAnalysis { revenue := some [1000000, 0] }).profitMargin
        = JSNum.nan :=
  margin_zero_revenue _ [1000000, 0] rfl rfl

/-! ## C6: trend classification -/

/-- Shared evaluation: the trend string is determined by the CAGR value
through the two fixed thresholds `0.15` and `0.05` (strict
comparisons, `NaN` comparing false). -/
theorem genFin_trend_eval (fd : FinancialData) (x : ℝ)
    (hc : (generateFinancialAnalysis fd).cagr = .num x) :
    (generateFinancialAnalysis fd).growthAnalysis.trend =
      (if 0.15 < x then "Strong growth"
       else if 0.05 < x then "Moderate growth"
       else "Steady growth") := by
  rw [genFin_trend, hc]
  by_cases h1 : (0.15 : ℝ) < x
  · rw [if_pos h1, if_pos]
    show JSNum.gtR (.num x) 0.15 = true
    simp [JSNum.gtR, h1]
  · rw [if_neg h1]
    have hg1 : JSNum.gtR (.num x) 0.15 = false := by simp [JSNum.gtR, h1]
    rw [hg1]
    by_cases h2 : (0.05 : ℝ) < x
    · have hg2 : JSNum.gtR (.num x) 0.05 = true := by simp [JSNum.gtR, h2]
      rw [if_pos h2]
      simp [hg2]
    · have hg2 : JSNum.gtR (.num x) 0.05 = false := by simp [JSNum.gtR, h2]
      rw [if_neg h2]
      simp [hg2]

/-- Shared evaluation: the two-entry series `[100, 120]` has CAGR
`(120/100)^(1/1) - 1 = 0.2`. -/
theorem genFin_cagr_100_120 :
    (generateFinancialAnalysis { revenue := some [100, 120] }).cagr = .num 0.2 := by
  rw [genFin_cagr_eval _ [100, 120] 100 120 rfl rfl rfl (by norm_num) (by norm_num)
    (by norm_num)]
  norm_num [Real.rpow_one]

/-- C6 counterexample: at the series `[100, 120]` the CAGR is `0.2`
(> 15%), and the reported trend string is `"Strong growth"` — with a
capital S — not the claim's exact string `"strong growth"` (the
implementation's strings are `'Strong growth'`, `'Moderate growth'`,
`'Steady growth'`). -/
theorem trend_exact_strings_counterexample :
    (generateFinancialAnalysis { revenue := some [100, 120] }).cagr = .num 0.2 ∧
    (0.15 : ℝ) < 0.2 ∧
    (generateFinancialAnalysis { revenue := some [100, 120] }).growthAnalysis.trend
      = "Strong growth" ∧
    "Strong growth" ≠ "strong growth" := by
  refine ⟨genFin_cagr_100_120, by norm_num, ?_, by decide⟩
  rw [genFin_trend_eval _ 0.2 genFin_cagr_100_120]
  norm_num

/-- C6 (amended): the trend classification is exactly: `"Strong growth"`
(capitalized) when CAGR > 15%, `"Moderate growth"` when
5% < CAGR ≤ 15%, and `"Steady growth"` otherwise, with the fixed
constants 0.05 and 0.15 as thresholds. -/
theorem trend_classification (fd : FinancialData) (x : ℝ)
    (hc : (generateFinancialAnalysis fd).cagr = .num x) :
    (generateFinancialAnalysis fd).growthAnalysis.trend =
      (if 0.15 < x then "Strong growth"
       else if 0.05 < x then "Moderate growth"
       else "Steady growth") :=
  genFin_trend_eval fd x hc

/-- Closed witness for C6 at the series `[100, 120]` (CAGR `0.2`). -/
theorem trend_classification_witness :
    (generateFinancialAnalysis { revenue := some [100, 120] }).growthAnalysis.trend =
      (if (0.15 : ℝ) < 0.2 then "Strong growth"
       else if (0.05 : ℝ) < 0.2 then "Moderate growth"
       else "Steady growth") :=
  trend_classification _ 0.2 genFin_cagr_100_120

/-! ## C7: the end-to-end numeric example -/

/-- The example input of the specification: revenue
`[10000000, 11500000, 13225000, 15208750, 17490063]`. -/
def exampleSeries : FinancialData :=
  { revenue := some [10000000, 11500000, 13225000, 15208750, 17490063] }

/-- The example assumptions: `investmentAmount = 5000000`. -/
def exampleAssumptions : Option Assumptions :=
  some { investmentAmount := some 5000000 }

/-- Bounds on the example CAGR value `1.7490063 ^ (1/4) - 1`: it lies
strictly between 14.99% and 15.01% (so it is ≈ 15.00%, not 14.97%). -/
theorem exampleCagr_bounds :
    (0.1499 : ℝ) < ((17490063 : ℝ) / 10000000) ^ ((1 : ℝ) / 4) - 1 ∧
    ((17490063 : ℝ) / 10000000) ^ ((1 : ℝ) / 4) - 1 < 0.1501 := by
  have hr : (0 : ℝ) ≤ 17490063 / 10000000 := by norm_num
  have key : ∀ a : ℝ, 0 ≤ a → (a ^ (4 : ℕ)) ^ ((1 : ℝ) / 4) = a := by
    intro a ha
    rw [← Real.rpow_natCast a 4, ← Real.rpow_mul ha]
    norm_num
  constructor
  · have h4 : ((1.1499 : ℝ)) ^ (4 : ℕ) < 17490063 / 10000000 := by norm_num
    have hlt := Real.rpow_lt_rpow (by positivity) h4 (by norm_num : (0:ℝ) < 1/4)
    rw [key 1.1499 (by norm_num)] at hlt
    linarith
  · have h4 : (17490063 : ℝ) / 10000000 < ((1.1501 : ℝ)) ^ (4 : ℕ) := by norm_num
    have hlt := Real.rpow_lt_rpow hr h4 (by norm_num : (0:ℝ) < 1/4)
    rw [key 1.1501 (by norm_num)] at hlt
    linarith

/-- The analyzer's CAGR on the example series, in closed form. -/
theorem exampleSeries_cagr :
    (generateFinancialAnalysis exampleSeries).cagr
      = .num (((17490063 : ℝ) / 10000000) ^ ((1 : ℝ) / 4) - 1) := by
  have h := genFin_cagr_eval exampleSeries
    [10000000, 11500000, 13225000, 15208750, 17490063]
    10000000 17490063 rfl rfl rfl (by norm_num) (by norm_num) (by norm_num)
  rw [h]
  norm_num

/-- C7 counterexample: the example's actual CAGR is above 14.99%, so it
is **not** approximately 14.97% (not within a 0.01-percentage-point
reading of "≈ 14.97%"). -/
theorem roi_example_cagr_counterexample :
    (generateFinancialAnalysis exampleSeries).cagr
      = .num (((17490063 : ℝ) / 10000000) ^ ((1 : ℝ) / 4) - 1) ∧
    ¬ |(((17490063 : ℝ) / 10000000) ^ ((1 : ℝ) / 4) - 1) - 0.1497| ≤ 0.0001 := by
  refine ⟨exampleSeries_cagr, fun habs => ?_⟩
  have h1 := exampleCagr_bounds.1
  have h2 := (abs_le.mp habs).2
  linarith

/-- The ROI narrative on the example input reports the base-case exit
valuation `$21.0M`. -/
theorem exampleROI_content_includes :
    strIncludes (generateROIAnalysis exampleSeries exampleAssumptions).content
      "Exit Valuation: $21.0M" = true := by
  have hInv : orQ (exampleAssumptions.bind (·.investmentAmount)) 5000000
      = 5000000 := by
    have h : exampleAssumptions.bind (·.investmentAmount) = some 5000000 := rfl
    rw [h]
    simp only [orQ]
    norm_num
  simp only [generateROIAnalysis, hInv]
  rw [(by norm_num : (5000000 : ℚ) * 4.2 / 1000000 = 21),
    (by norm_num : (5000000 : ℚ) * 5.8 / 1000000 = 29),
    (by rw [Rat.divInt_eq_div]; norm_num :
      (5000000 : ℚ) * 3.1 / 1000000 = Rat.divInt 31 2),
    (by norm_num : (5000000 : ℚ) / 1000000 = 5),
    (by rw [Rat.divInt_eq_div]; norm_num : (4.2 : ℚ) = Rat.divInt 21 5),
    (by rw [Rat.divInt_eq_div]; norm_num : (5.8 : ℚ) = Rat.divInt 29 5),
    (by rw [Rat.divInt_eq_div]; norm_num : (3.1 : ℚ) = Rat.divInt 31 10)]
  decide

/-- C7 (amended): on the example input the ROI base-case scenario has
IRR 22 and multiple 4.2, the narrative reports an exit valuation of
$21.0M = investmentAmount × multiple = 21,000,000, and the financial
CAGR is ≈ 15.00% (not 14.97%): it lies strictly between 14.99% and
15.01%. -/
theorem roi_end_to_end_example :
    (generateROIAnalysis exampleSeries exampleAssumptions).scenarios.baseCase.irr
        = 22 ∧
    (generateROIAnalysis exampleSeries exampleAssumptions).scenarios.baseCase.multiple
        = 4.2 ∧
    strIncludes (generateROIAnalysis exampleSeries exampleAssumptions).content
        "Exit Valuation: $21.0M" = true ∧
    (5000000 : ℚ) * 4.2 = 21000000 ∧
    (generateFinancialAnalysis exampleSeries).cagr
        = .num (((17490063 : ℝ) / 10000000) ^ ((1 : ℝ) / 4) - 1) ∧
    (0.1499 : ℝ) < ((17490063 : ℝ) / 10000000) ^ ((1 : ℝ) / 4) - 1 ∧
    ((17490063 : ℝ) / 10000000) ^ ((1 : ℝ) / 4) - 1 < 0.1501 :=
  ⟨rfl, rfl, exampleROI_content_includes, by norm_num, exampleSeries_cagr,
    exampleCagr_bounds.1, exampleCagr_bounds.2⟩

/-! ## C10: totality of the renderer's `formatContent` -/

theorem contentSize_pos (c : JSContent) : 1 ≤ contentSize c := by
  cases c <;> simp [contentSize]

theorem contentSize_le_of_mem {c : JSContent} {l : List JSContent}
    (h : c ∈ l) : contentSize c ≤ contentSizeList l := by
  induction l with
  | nil => simp at h
  | cons a t ih =>
    rw [contentSizeList]
    rcases List.mem_cons.mp h with h | h
    · subst h
      omega
    · have := ih h
      omega

theorem contentSize_le_of_lookup {es : List (String × JSContent)} {k : String}
    {v : JSContent} (h : es.lookup k = some v) :
    contentSize v ≤ contentSizeEntries es := by
  induction es with
  | nil => simp [List.lookup] at h
  | cons e t ih =>
    obtain ⟨k', v'⟩ := e
    rw [List.lookup] at h
    cases hbk : (k == k') with
    | true =>
      rw [hbk] at h
      simp only [Option.some.injEq] at h
      subst h
      simp only [contentSizeEntries]
      omega
    | false =>
      rw [hbk] at h
      have := ih h
      simp only [contentSizeEntries]
      omega

theorem contentSize_snd_le_of_mem {e : String × JSContent}
    {es : List (String × JSContent)} (h : e ∈ es) :
    contentSize e.2 ≤ contentSizeEntries es := by
  induction es with
  | nil => simp at h
  | cons a t ih =>
    rw [contentSizeEntries]
    rcases List.mem_cons.mp h with h | h
    · subst h
      omega
    · have := ih h
      omega

theorem optMapM_isSome {α β : Type} (f : α → Option β) (l : List α)
    (h : ∀ a ∈ l, (f a).isSome = true) : (optMapM f l).isSome = true := by
  induction l with
  | nil => rfl
  | cons a t ih =>
    rw [optMapM]
    cases hfa : f a with
    | none =>
      have := h a (by simp)
      rw [hfa] at this
      simp at this
    | some b =>
      have ht := ih (fun x hx => h x (by simp [hx]))
      cases hmt : optMapM f t with
      | none =>
        rw [hmt] at ht
        simp at ht
      | some bs => simp

theorem formatObjEntries_isSome (n : Nat) (es : List (String × JSContent))
    (h : ∀ e ∈ es, (formatContent n e.2).isSome = true) :
    (formatObjEntries n es).isSome = true := by
  rw [formatObjEntries, Option.isSome_map']
  apply optMapM_isSome
  intro e he
  rw [Option.isSome_map']
  exact h e he

theorem formatContent_isSome (fuel : Nat) :
    ∀ c : JSContent, contentSize c ≤ fuel →
      (formatContent fuel c).isSome = true := by
  induction fuel with
  | zero =>
    intro c hc
    have := contentSize_pos c
    omega
  | succ n ih =>
    intro c hc
    simp only [formatContent]
    by_cases ht : jsTruthy c
    case neg =>
      simp [ht]
    case pos =>
      simp only [ht, Bool.not_true, Bool.false_eq_true, if_false]
      cases c with
      | null => simp
      | undef => simp
      | str s => simp
      | num q => simp
      | bool b => simp
      | arr l =>
        by_cases he : l.isEmpty
        · simp [he]
        · simp only [he, Bool.false_eq_true, if_false, Option.isSome_map']
          apply optMapM_isSome
          intro a ha
          apply ih
          have h1 := contentSize_le_of_mem ha
          have h2 : contentSize (JSContent.arr l) = 1 + contentSizeList l := by
            rw [contentSize]
          omega
      | obj es =>
        dsimp only
        have hsz : contentSize (JSContent.obj es) = 1 + contentSizeEntries es := by
          rw [contentSize]
        have hent : ∀ e ∈ es, (formatContent n e.2).isSome = true := by
          intro e he
          apply ih
          have := contentSize_snd_le_of_mem he
          omega
        cases hlk : es.lookup "content" with
        | some v =>
          dsimp only
          by_cases hv : jsTruthy v
          · simp only [hv, if_true]
            apply ih
            have := contentSize_le_of_lookup hlk
            omega
          · simp only [hv, Bool.false_eq_true, if_false]
            exact formatObjEntries_isSome n es hent
        | none =>
          exact formatObjEntries_isSome n es hent

/-- C10: the renderer's `formatContent` is total over every finite
acyclic section content value: the `contentSize`-bounded evaluation
never runs out of fuel (no unbounded recursion, no thrown error), with
`''` for `null`/`undefined` and for the empty array, and the markup
conversion for strings. -/
theorem formatContent_total :
    (∀ c : JSContent, (formatContent (contentSize c) c).isSome = true) ∧
    formatContent (contentSize JSContent.null) JSContent.null = some "" ∧
    formatContent (contentSize JSContent.undef) JSContent.undef = some "" ∧
    formatContent (contentSize (JSContent.arr [])) (JSContent.arr []) = some "" ∧
    (∀ s : String, formatContent (contentSize (JSContent.str s)) (JSContent.str s)
        = some (formatString s)) := by
  have hnull : contentSize JSContent.null = 1 := by simp [contentSize]
  have hundef : contentSize JSContent.undef = 1 := by simp [contentSize]
  have harr : contentSize (JSContent.arr []) = 1 := by
    simp [contentSize, contentSizeList]
  refine ⟨fun c => formatContent_isSome _ c le_rfl, ?_, ?_, ?_, ?_⟩
  · rw [hnull]
    rfl
  · rw [hundef]
    rfl
  · rw [harr]
    rfl
  · intro s
    have h1 : contentSize (JSContent.str s) = 1 := by simp [contentSize]
    rw [h1]
    by_cases hs : s = ""
    · subst hs
      have hfs : formatString "" = "" := by
        simp [formatString, replaceBold, replaceItalic, splitOnNewline, buildLines,
          charTrim, listLeadsWith, String.join]
      rw [hfs]
      rfl
    · simp only [formatContent]
      simp [jsTruthy, hs]

/-! ## C2: section completeness of the compiled document -/

theorem append_right_ne_empty (a b : String) (h : b ≠ "") : a ++ b ≠ "" := by
  intro he
  apply h
  have hd : a.data ++ b.data = [] := by
    have := congrArg String.data he
    rwa [String.data_append] at this
  exact String.ext (List.append_eq_nil.mp hd).2

theorem listLeadsWith_append {A B pat : List Char}
    (h : listLeadsWith A pat = true) : listLeadsWith (A ++ B) pat = true := by
  induction pat generalizing A with
  | nil =>
    cases A <;> cases B <;> rfl
  | cons b bs ih =>
    cases A with
    | nil => simp [listLeadsWith] at h
    | cons a t =>
      rw [List.cons_append]
      rw [listLeadsWith] at h ⊢
      rcases Bool.and_eq_true_iff.mp h with ⟨h1, h2⟩
      rw [h1, ih h2]
      rfl

theorem dropWhile_append_of_ne_nil {p : Char → Bool} {A : List Char}
    {c : Char} {C : List Char} (h : A.dropWhile p = c :: C) (B : List Char) :
    (A ++ B).dropWhile p = c :: (C ++ B) := by
  induction A with
  | nil => simp [List.dropWhile] at h
  | cons a t ih =>
    by_cases hp : p a
    · rw [List.dropWhile_cons, if_pos hp] at h
      rw [List.cons_append, List.dropWhile_cons, if_pos hp]
      exact ih h
    · rw [List.dropWhile_cons, if_neg hp] at h
      rw [List.cons_append, List.dropWhile_cons, if_neg hp]
      injection h with h1 h2
      subst h1
      subst h2
      rfl

theorem charTrim_ne_nil {l : List Char} {c : Char} {t : List Char}
    (hl : l.dropWhile isJSWhitespace = c :: t) (hc : isJSWhitespace c = false) :
    charTrim l ≠ [] := by
  unfold charTrim
  rw [hl]
  intro h
  rw [List.reverse_eq_nil_iff] at h
  have hmem : c ∈ (c :: t).reverse := by simp
  have := List.dropWhile_eq_nil_iff.mp h c hmem
  rw [hc] at this
  exact Bool.false_ne_true this

/-- The fixed heading that opens the deterministic executive-summary
template. -/
def execHeader : String := "\n**Executive Summary**\n\n**Investment Opportunity:**\n"

/-- Stripping and trimming any string that starts with the
deterministic template's heading leaves a string that starts with
`**Investment Opportunity:**` — in particular, a non-empty one. -/
theorem cleanExec_header_ne_empty (rest : String) :
    cleanExecSummary (execHeader ++ rest) ≠ "" := by
  have hdata : (execHeader ++ rest).data = execHeader.data ++ rest.data :=
    String.data_append _ _
  have h1 : execHeader.data.dropWhile isJSWhitespace
      = '*' :: "*Executive Summary**\n\n**Investment Opportunity:**\n".data := by decide
  have h2 : (execHeader.data ++ rest.data).dropWhile isJSWhitespace
      = '*' :: ("*Executive Summary**\n\n**Investment Opportunity:**\n".data ++ rest.data) :=
    dropWhile_append_of_ne_nil h1 rest.data
  have h3 : listLeadsWith
      (('*' :: "*Executive Summary**\n\n**Investment Opportunity:**\n".data).map Char.toLower)
      "**executive summary**".data = true := by decide
  have h4 : listLeadsWith
      ((('*' :: ("*Executive Summary**\n\n**Investment Opportunity:**\n".data ++ rest.data))).map Char.toLower)
      "**executive summary**".data = true := by
    rw [show ('*' :: ("*Executive Summary**\n\n**Investment Opportunity:**\n".data ++ rest.data))
        = ('*' :: "*Executive Summary**\n\n**Investment Opportunity:**\n".data) ++ rest.data
      from rfl, List.map_append]
    exact listLeadsWith_append h3
  have h5 : (('*' :: ("*Executive Summary**\n\n**Investment Opportunity:**\n".data ++ rest.data))).drop 21
      = "\n\n**Investment Opportunity:**\n".data ++ rest.data := by
    rw [show ('*' :: ("*Executive Summary**\n\n**Investment Opportunity:**\n".data ++ rest.data))
        = ('*' :: "*Executive Summary**\n\n**Investment Opportunity:**\n".data) ++ rest.data
      from rfl]
    rw [List.drop_append_of_le_length (by decide)]
    rfl
  have h6 : ("\n\n**Investment Opportunity:**\n".data).dropWhile isJSWhitespace
      = '*' :: "*Investment Opportunity:**\n".data := by decide
  have h7 : ("\n\n**Investment Opportunity:**\n".data ++ rest.data).dropWhile isJSWhitespace
      = '*' :: ("*Investment Opportunity:**\n".data ++ rest.data) :=
    dropWhile_append_of_ne_nil h6 rest.data
  have hstars : stripExecHeaderStars (execHeader ++ rest)
      = String.mk ('*' :: ("*Investment Opportunity:**\n".data ++ rest.data)) := by
    unfold stripExecHeaderStars
    rw [hdata, h2, if_pos h4]
    rw [h5, h7]
  have hmd : stripExecHeaderMd
      (String.mk ('*' :: ("*Investment Opportunity:**\n".data ++ rest.data)))
      = String.mk ('*' :: ("*Investment Opportunity:**\n".data ++ rest.data)) := by
    unfold stripExecHeaderMd
    have hdw2 : (String.mk ('*' :: ("*Investment Opportunity:**\n".data ++ rest.data))).data.dropWhile
        isJSWhitespace = '*' :: ("*Investment Opportunity:**\n".data ++ rest.data) := by
      show ('*' :: ("*Investment Opportunity:**\n".data ++ rest.data)).dropWhile isJSWhitespace = _
      rw [List.dropWhile_cons, if_neg (by decide)]
    rw [hdw2]
    rw [if_neg (by simp [listLeadsWith])]
  unfold cleanExecSummary
  rw [hstars, hmd]
  unfold jsTrim
  intro he
  have hnil : charTrim ('*' :: ("*Investment Opportunity:**\n".data ++ rest.data)) = [] := by
    have := congrArg String.data he
    exact this
  have hdw : ('*' :: ("*Investment Opportunity:**\n".data ++ rest.data)).dropWhile isJSWhitespace
      = '*' :: ("*Investment Opportunity:**\n".data ++ rest.data) := by
    rw [List.dropWhile_cons, if_neg (by decide)]
  exact charTrim_ne_nil hdw (by decide) hnil

/-- The deterministic fallback template always survives the
executive-summary heading strip: its body after the heading is
non-empty. -/
theorem cleanExec_fallback_ne_empty (c : Option Company) (f : Option FinAnalysis)
    (m : Option MktAnalysis) :
    cleanExecSummary (generateExecutiveSummaryContent c f m) ≠ "" := by
  obtain ⟨rest, hr⟩ : ∃ rest, generateExecutiveSummaryContent c f m = execHeader ++ rest :=
    ⟨_, by
      simp only [generateExecutiveSummaryContent, execHeader, String.append_assoc]
      rfl⟩
  rw [hr]
  exact cleanExec_header_ne_empty rest

theorem genFin_content_ne_empty (fd : FinancialData) :
    (generateFinancialAnalysis fd).content ≠ "" := by
  apply ne_empty_of_length_pos
  simp only [generateFinancialAnalysis, String.length_append]
  have h : 0 <
      ("\n**Financial Performance Analysis**\n\n**Revenue Growth:**\n- 3-Year Revenue CAGR: " :
        String).length := by
    decide
  omega

/-- The Growth Strategy augmentation always yields a non-empty market
section: either the block is appended, or the content already contained
the (non-empty) marker. -/
theorem augment_ne_empty (content : String) : augmentGrowthStrategy content ≠ "" := by
  unfold augmentGrowthStrategy
  by_cases h : strIncludes content "Growth Strategy" = true
  · rw [if_pos h]
    have hc : content ≠ "" := by
      intro he
      subst he
      rw [show strIncludes "" "Growth Strategy" = false from by decide] at h
      exact Bool.false_ne_true h
    exact append_left_ne_empty _ _ hc
  · rw [if_neg h]
    apply append_right_ne_empty
    decide

theorem roiTable_ne_empty (s : Scenarios) : generateROITable (some s) ≠ "" := by
  apply ne_empty_of_length_pos
  simp only [generateROITable, String.length_append]
  have h : 0 <
      ("\n      <strong>Scenario Comparison (Base / Upside / Downside)</strong>\n      <table class=\"financial-table\">\n        <thead>\n          <tr>\n            <th>Metric</th>\n            <th>Base Case</th>\n            <th>Upside Case</th>\n            <th>Downside Case</th>\n          </tr>\n        </thead>\n        <tbody>\n          <tr><td>Projected IRR</td><td>" :
        String).length := by
    decide
  omega

/-- Non-emptiness of a section's content value: a non-empty string, a
non-empty array, or a non-empty object. -/
def contentNonempty : JSContent → Prop
  | .str s => s ≠ ""
  | .arr l => l ≠ []
  | .obj es => es ≠ []
  | _ => False

/-- The eight section keys of the compiled document, in order. -/
def cimSectionKeys : List String :=
  ["executiveSummary", "companyOverview", "marketAnalysis", "financialAnalysis",
   "investmentHighlights", "roiProjections", "riskFactors", "appendices"]

/-- Structure of every compiled document: exactly the eight fixed keys
with orders 1..8, the five required sections present with non-empty
content (given a surviving executive summary and a non-empty financial
narrative, which the analyzers always deliver), and validation
passing. -/
theorem compile_structure (rand now : String) (tpl : Template) (company : Company)
    (finA : FinAnalysis) (mktA : MktAnalysis) (roi : ROIAnalysis) (es : String)
    (rawfin : Option RawFinancials)
    (hes : cleanExecSummary es ≠ "") (hfin : finA.content ≠ "") :
    (compileCIMContent rand now tpl company finA mktA roi es rawfin).sections.map
        Prod.fst = cimSectionKeys ∧
    (compileCIMContent rand now tpl company finA mktA roi es rawfin).sections.map
        (fun kv => kv.2.order) = [1, 2, 3, 4, 5, 6, 7, 8] ∧
    (∀ key ∈ requiredSections,
      ∃ s, (compileCIMContent rand now tpl company finA mktA roi es
        rawfin).sections.lookup key = some s ∧ contentNonempty s.content) ∧
    validateCIMContent (compileCIMContent rand now tpl company finA mktA roi es rawfin)
      = .ok true := by
  refine ⟨by simp [compileCIMContent, cimSectionKeys],
    by simp [compileCIMContent], ?_, ?_⟩
  · intro key hk
    simp only [requiredSections, List.mem_cons, List.not_mem_nil, or_false] at hk
    rcases hk with rfl | rfl | rfl | rfl | rfl
    · refine ⟨⟨"Executive Summary", .str (cleanExecSummary es), 1⟩, ?_, ?_⟩
      · simp [compileCIMContent, List.lookup]
      · exact hes
    · refine ⟨⟨"Company Overview",
        .obj [("description", optStrContent company.description),
              ("industry", optStrContent company.industry),
              ("keyHighlights",
               .arr ((extractKeyHighlights finA mktA).map .str))], 2⟩, ?_, ?_⟩
      · simp [compileCIMContent, List.lookup]
      · simp [contentNonempty]
    · refine ⟨⟨"Market Analysis & Opportunity",
        .str (augmentGrowthStrategy mktA.content), 3⟩, ?_, ?_⟩
      · simp [compileCIMContent, List.lookup]
      · exact augment_ne_empty _
    · refine ⟨⟨"Financial Analysis & Performance",
        .str (finA.content ++ generateFinancialChart rand rawfin), 4⟩, ?_, ?_⟩
      · simp [compileCIMContent, List.lookup]
      · exact append_left_ne_empty _ _ hfin
    · refine ⟨⟨"Financial Projections & Returns",
        .str (generateROITable (some roi.scenarios)), 6⟩, ?_, ?_⟩
      · simp [compileCIMContent, List.lookup]
      · exact roiTable_ne_empty _
  · simp [validateCIMContent, requiredSections, compileCIMContent, List.lookup]

theorem except_ok_bind {ε α β : Type} (a : α) (f : α → Except ε β) :
    (Except.ok a >>= f) = f a := rfl

theorem except_pure {ε α : Type} (a : α) : (pure a : Except ε α) = .ok a := rfl

/-- Reduction of the generation pipeline once the template lookup and
the executive-summary outcome are fixed. -/
theorem generateCIM_eq (rand now : String) (isAIEnabled : Bool)
    (aiResult : Except Unit String) (company : Company) (fd : FinancialData)
    (industryData : Option IndustryData) (assumptions : Option Assumptions)
    (templateId : String) (tpl : Template)
    (htpl : getTemplate templateId = .ok tpl) (es : String)
    (hes : generateExecutiveSummary isAIEnabled aiResult (some company)
      (some (generateFinancialAnalysis fd))
      (some (generateMarketAnalysisContent (some company) industryData))
      = .ok ⟨true, es⟩) :
    generateCIMContent rand now isAIEnabled aiResult company fd industryData
        assumptions templateId
      = .ok (compileCIMContent rand now tpl company (generateFinancialAnalysis fd)
          (generateMarketAnalysisContent (some company) industryData)
          (generateROIAnalysis fd assumptions) es
          (some ⟨(generateFinancialAnalysis fd).revenue,
            (generateFinancialAnalysis fd).ebitda,
            (generateFinancialAnalysis fd).netIncome⟩)) := by
  simp only [generateCIMContent, htpl, except_ok_bind, hes, except_pure]

/-- C2 (amended): for every input, every AI-backend outcome, and every
registered template, the generation pipeline succeeds and produces a
document with exactly the eight fixed section keys carrying orders 1..8
(unique and ascending); the five required sections are always present,
and their content is non-empty provided the executive-summary text
survives the heading strip — which holds unconditionally on the
fallback path (AI disabled or failing), and holds on the AI-success
path unless the returned text is empty after stripping the heading. -/
theorem generateCIM_complete (rand now : String) (isAIEnabled : Bool)
    (aiResult : Except Unit String) (company : Company) (fd : FinancialData)
    (industryData : Option IndustryData) (assumptions : Option Assumptions)
    (templateId : String) (tpl : Template)
    (htpl : getTemplate templateId = .ok tpl)
    (hexec : ∀ t, isAIEnabled = true → aiResult = Except.ok t →
      cleanExecSummary t ≠ "") :
    ∃ doc,
      generateCIMContent rand now isAIEnabled aiResult company fd industryData
        assumptions templateId = .ok doc ∧
      doc.sections.map Prod.fst = cimSectionKeys ∧
      doc.sections.map (fun kv => kv.2.order) = [1, 2, 3, 4, 5, 6, 7, 8] ∧
      (∀ key ∈ requiredSections,
        ∃ s, doc.sections.lookup key = some s ∧ contentNonempty s.content) ∧
      validateCIMContent doc = .ok true := by
  obtain ⟨es, hesEq, hesNe⟩ :
      ∃ es, generateExecutiveSummary isAIEnabled aiResult (some company)
          (some (generateFinancialAnalysis fd))
          (some (generateMarketAnalysisContent (some company) industryData))
          = .ok ⟨true, es⟩ ∧ cleanExecSummary es ≠ "" := by
    cases isAIEnabled with
    | false =>
      exact ⟨generateExecutiveSummaryContent (some company)
        (some (generateFinancialAnalysis fd))
        (some (generateMarketAnalysisContent (some company) industryData)), rfl,
        cleanExec_fallback_ne_empty _ _ _⟩
    | true =>
      cases aiResult with
      | ok t => exact ⟨t, rfl, hexec t rfl rfl⟩
      | error e =>
        exact ⟨generateExecutiveSummaryContent (some company)
          (some (generateFinancialAnalysis fd))
          (some (generateMarketAnalysisContent (some company) industryData)), rfl,
          cleanExec_fallback_ne_empty _ _ _⟩
  have hcs := compile_structure rand now tpl company (generateFinancialAnalysis fd)
    (generateMarketAnalysisContent (some company) industryData)
    (generateROIAnalysis fd assumptions) es
    (some ⟨(generateFinancialAnalysis fd).revenue,
      (generateFinancialAnalysis fd).ebitda,
      (generateFinancialAnalysis fd).netIncome⟩) hesNe (genFin_content_ne_empty fd)
  exact ⟨_, generateCIM_eq rand now isAIEnabled aiResult company fd industryData
    assumptions templateId tpl htpl es hesEq, hcs.1, hcs.2.1, hcs.2.2.1, hcs.2.2.2⟩

/-- Closed witness for C2: minimal inputs, AI failing, the standard
template. -/
theorem generateCIM_complete_witness :
    ∃ doc,
      generateCIMContent "r" "2024-01-01" false (.error ()) {} {} none none
        "standard-cim" = .ok doc ∧
      doc.sections.map Prod.fst = cimSectionKeys ∧
      doc.sections.map (fun kv => kv.2.order) = [1, 2, 3, 4, 5, 6, 7, 8] ∧
      (∀ key ∈ requiredSections,
        ∃ s, doc.sections.lookup key = some s ∧ contentNonempty s.content) ∧
      validateCIMContent doc = .ok true :=
  generateCIM_complete "r" "2024-01-01" false (.error ()) {} {} none none
    "standard-cim"
    { id := "standard-cim", name := "Standard CIM Template",
      description := "Comprehensive CIM template for investment banking",
      sections := cimSectionKeys } rfl
    (fun _ ht _ => absurd ht Bool.false_ne_true)

/-- C2 counterexample: `compileCIMContent` accepts the executive-summary
input `"**Executive Summary**"` — a value the AI path can deliver, with
all other inputs genuine analyzer outputs — and the resulting
executive-summary section has EMPTY content: the required sections are
not always populated with non-empty content. -/
theorem compile_empty_exec_counterexample :
    (compileCIMContent "r" "2024-01-01"
        { id := "standard-cim", name := "Standard CIM Template",
          description := "Comprehensive CIM template for investment banking",
          sections := cimSectionKeys } {} (generateFinancialAnalysis {})
        (generateMarketAnalysisContent none none) (generateROIAnalysis {} none)
        "**Executive Summary**" none).sections.lookup "executiveSummary"
      = some ⟨"Executive Summary", .str "", 1⟩ := by
  have hclean : cleanExecSummary "**Executive Summary**" = "" := by decide
  rw [show (compileCIMContent "r" "2024-01-01"
        { id := "standard-cim", name := "Standard CIM Template",
          description := "Comprehensive CIM template for investment banking",
          sections := cimSectionKeys } {} (generateFinancialAnalysis {})
        (generateMarketAnalysisContent none none) (generateROIAnalysis {} none)
        "**Executive Summary**" none).sections.lookup "executiveSummary"
      = some ⟨"Executive Summary", .str (cleanExecSummary "**Executive Summary**"), 1⟩
    from by simp [compileCIMContent, List.lookup]]
  rw [hclean]

/-! ## C9: export with an empty financial series -/

/-- C9: for every document whose financial series is empty or absent,
the chart generator returns the empty string (no placeholder chart),
the `{{#if chartSvg}}` embed contributes nothing, and HTML generation
still succeeds, producing exactly the chart-free rendering. -/
theorem export_empty_series (generatedDate : String) (data : PDFData)
    (h : ((data.content.bind (·.financialData)).getD {}).revenue.getD [] = []) :
    generateSVGChart ((data.content.bind (·.financialData)).getD {}) = "" ∧
    generateHTMLContent generatedDate data =
      .ok (renderDefaultTemplate ((data.title).getD "")
        ((data.company.bind (·.name)).getD "") generatedDate
        (formatSectionsForTemplate ((data.content.bind (·.sections)).getD [])) "") ∧
    chartEmbed "" = "" := by
  have hsvg : generateSVGChart ((data.content.bind (·.financialData)).getD {}) = "" := by
    simp only [generateSVGChart]
    rw [h]
    simp
  refine ⟨hsvg, ?_, rfl⟩
  simp only [generateHTMLContent]
  rw [hsvg]

/-- Closed witness for C9: a document carrying no content at all still
renders without a chart embed and without an error. -/
theorem export_empty_series_witness :
    generateSVGChart (((({} : PDFData)).content.bind (·.financialData)).getD {}) = "" ∧
    generateHTMLContent "1/1/2024" ({} : PDFData) =
      .ok (renderDefaultTemplate (((({} : PDFData)).title).getD "")
        (((({} : PDFData)).company.bind (·.name)).getD "") "1/1/2024"
        (formatSectionsForTemplate (((({} : PDFData)).content.bind (·.sections)).getD []))
        "") ∧
    chartEmbed "" = "" :=
  export_empty_series "1/1/2024" {} rfl

end CIMPlatform
